import Mathlib

/-!
Verification of the Nova Act title-search sidecar service
(`nova-act-sidecar/main.py`): a shallow embedding in Lean 4 of the
address parser, the county site-profile registry, the simulation
generator, the run-history store, the agent-run coordinator's
success/partial policy, and the SSE streaming relay, together with
theorems settling the specified behavioural claims.

Conventions of the embedding:
* Python strings are Lean `String`s; all manipulation is done on the
  underlying `List Char` so that every definition reduces in the kernel.
* Wall-clock timestamps (`datetime.now()`, `time.time()`) do not affect
  any claimed behaviour except through the relay's inactivity ceiling,
  which is modelled discretely: one empty queue poll = one 10 s
  `queue.get` timeout, matching the poll loop's only use of time.
* `random.*` draws are explicit parameters (`SimRand`); the float
  comparisons `random.random() > p` are modelled by the Boolean outcome
  of the comparison.
* Exceptions are modelled by `Option`: a function that can raise
  returns `none` on the raising input.
-/

set_option maxRecDepth 100000

namespace TitleNova

/-! ## Python string primitives

Faithful models of the Python `str` operations the service uses,
implemented over `List Char` so they compute by `decide`. -/

/-- Build a `String` from its character list. -/
def ofChars (cs : List Char) : String := ⟨cs⟩

/-- Python truthiness of an optional string (`None` and `""` are falsy). -/
def pyTruthyStr : Option String → Bool
  | none => false
  | some s => !s.data.isEmpty

/-- Python `str.strip()`: remove leading and trailing whitespace. -/
def pyStrip (s : String) : String :=
  ofChars (((s.data.dropWhile Char.isWhitespace).reverse.dropWhile Char.isWhitespace).reverse)

/-- Helper for Python `str.split()` (no separator): accumulate the current
word (reversed) and cut at whitespace runs, dropping empty pieces. -/
def splitWsAux : List Char → List Char → List (List Char)
  | [], acc => if acc.isEmpty then [] else [acc.reverse]
  | c :: cs, acc =>
    if c.isWhitespace then
      if acc.isEmpty then splitWsAux cs [] else acc.reverse :: splitWsAux cs []
    else splitWsAux cs (c :: acc)

/-- Python `str.split()` with no argument: whitespace-separated words,
no empty strings. -/
def pySplitWs (s : String) : List String := (splitWsAux s.data []).map ofChars

/-- Helper for Python `str.split(sep)` with a one-character separator:
empty pieces are kept. -/
def splitCharAux (sep : Char) : List Char → List Char → List (List Char)
  | [], acc => [acc.reverse]
  | c :: cs, acc =>
    if c = sep then acc.reverse :: splitCharAux sep cs []
    else splitCharAux sep cs (c :: acc)

/-- Python `str.split(sep)` for a one-character separator. -/
def pySplitChar (sep : Char) (s : String) : List String :=
  (splitCharAux sep s.data []).map ofChars

/-- Helper for Python `sep.join(pieces)` at the character level. -/
def joinAux (sep : List Char) : List (List Char) → List Char
  | [] => []
  | [x] => x
  | x :: xs => x ++ sep ++ joinAux sep xs

/-- Python `" ".join(s.strip().split())`: collapse all whitespace runs to
single spaces and trim the ends (`main.py` line 115). -/
def normalizeWs (s : String) : String :=
  ofChars (joinAux [' '] (splitWsAux (pyStrip s).data []))

/-! ## Address parser (`parse_address`, `main.py` lines 99-140) -/

/-- The dict returned by `parse_address`: all fields strings, any may be
empty, `raw` keeps the original input. -/
structure ParsedAddress where
  street_number : String
  street_name : String
  city : String
  state : String
  zip : String
  full_street : String
  raw : String
deriving DecidableEq, Repr

/-- The regex `^(\d+)\s+(.+)$` applied to the street segment
(`main.py` line 124): a leading run of digits, at least one whitespace
character, then a non-empty remainder.  The final branch mirrors regex
backtracking when everything after the digits is whitespace (`\s+`
yields its last character to `(.+)`); it is unreachable for the
whitespace-normalized segments the parser feeds in. -/
def streetMatch (street : String) : Option (String × String) :=
  let cs := street.data
  let digits := cs.takeWhile Char.isDigit
  let after := cs.dropWhile Char.isDigit
  let ws := after.takeWhile Char.isWhitespace
  let name := after.dropWhile Char.isWhitespace
  if digits.isEmpty then none
  else if ws.isEmpty then none
  else if !name.isEmpty then some (ofChars digits, ofChars name)
  else if ws.length ≥ 2 then some (ofChars digits, ofChars (ws.drop (ws.length - 1)))
  else none

/-- ASCII upper-case letter test, as the regex class `[A-Z]`. -/
def isUpperAZ (c : Char) : Bool := 'A' ≤ c && c ≤ 'Z'

/-- The regex `^([A-Z]{2})\s*(\d{5})?` applied to the state/zip segment
(`main.py` line 135), an unanchored prefix match: two capital letters,
optional whitespace, then an optional run of exactly five digits.
Returns `(state, zip or "")`, mirroring `m.group(2) or ""`. -/
def stateZipMatch (s : String) : Option (String × String) :=
  match s.data with
  | a :: b :: rest =>
    if isUpperAZ a && isUpperAZ b then
      let afterWs := rest.dropWhile Char.isWhitespace
      let five := afterWs.take 5
      if five.length = 5 && five.all Char.isDigit then
        some (ofChars [a, b], ofChars five)
      else
        some (ofChars [a, b], "")
    else none
  | _ => none

/-- `parse_address` (`main.py` lines 99-140): collapse whitespace, split
on commas, extract street number/name from segment 1, city from
segment 2, state and zip from segment 3.  Any unparsable segment yields
empty fields; no failure mode. -/
def parse_address (address : String) : ParsedAddress :=
  let addr := normalizeWs address
  let segments := (pySplitChar ',' addr).map pyStrip
  let street := segments.headD ""
  let numName := (streetMatch street).getD ("", "")
  let city := if segments.length ≥ 2 then pyStrip ((segments.get? 1).getD "") else ""
  let stZip :=
    if segments.length ≥ 3 then
      (stateZipMatch (pyStrip ((segments.get? 2).getD ""))).getD ("", "")
    else ("", "")
  { street_number := numName.1
    street_name := numName.2
    city := city
    state := stZip.1
    zip := stZip.2
    full_street := street
    raw := address }

/-! ## Substring containment

`strContains s sub` holds when `sub` occurs verbatim inside `s`; used to
state which interpolated address fields appear in the registry prompts. -/

/-- `sub` occurs contiguously inside `s`. -/
def strContains (s sub : String) : Prop := sub.data <:+: s.data

instance (s sub : String) : Decidable (strContains s sub) :=
  inferInstanceAs (Decidable (sub.data <:+: s.data))

/-- `suffix` is a verbatim suffix of `s`. -/
def strEndsWith (s suffix : String) : Prop := suffix.data <:+ s.data

instance (s suffix : String) : Decidable (strEndsWith s suffix) :=
  inferInstanceAs (Decidable (suffix.data <:+ s.data))

/-! ## Python `urllib.parse.quote_plus`

Used only by the generic fallback profile's web-search URL
(`main.py` line 390): UTF-8 percent-encoding with uppercase hex, the
always-safe characters `A-Za-z0-9_.-~` kept, and space mapped to `+`. -/

/-- Uppercase hexadecimal digit for `n < 16`. -/
def hexUpper (n : Nat) : Char := if n < 10 then Char.ofNat (48 + n) else Char.ofNat (55 + n)

/-- The UTF-8 encoding of a character, as byte values. -/
def utf8Bytes (c : Char) : List Nat :=
  let n := c.toNat
  if n < 128 then [n]
  else if n < 2048 then [192 + n / 64, 128 + n % 64]
  else if n < 65536 then [224 + n / 4096, 128 + (n / 64) % 64, 128 + n % 64]
  else [240 + n / 262144, 128 + (n / 4096) % 64, 128 + (n / 64) % 64, 128 + n % 64]

/-- Percent-encoding of one byte, `%XX` with uppercase hex. -/
def percentByte (b : Nat) : String := ofChars ['%', hexUpper (b / 16), hexUpper (b % 16)]

/-- The characters `quote_plus` never encodes. -/
def quotePlusSafe (c : Char) : Bool :=
  c.isAlpha || c.isDigit || c = '_' || c = '.' || c = '-' || c = '~'

/-- `quote_plus` on a single character. -/
def quotePlusChar (c : Char) : String :=
  if quotePlusSafe c then ofChars [c]
  else if c = ' ' then "+"
  else String.join ((utf8Bytes c).map percentByte)

/-- Python `urllib.parse.quote_plus`. -/
def quotePlus (s : String) : String := String.join (s.data.map quotePlusChar)

/-! ## County site-profile registry (`CountyConfig`, `_get_county_config`,
`main.py` lines 145-406) -/

/-- Configuration for how to search a specific county recorder site
(`main.py` lines 145-153). -/
structure CountyConfig where
  url : String
  search_type : String
  search_prompt : String
  deed_nav_prompt : String
  lien_search_prompt : String
  notes : String := ""
deriving DecidableEq, Repr

/-- Travis County entry (`main.py` lines 169-196). -/
def travis_config (a : ParsedAddress) : CountyConfig :=
  { url := "https://www.tccsearch.org/"
    search_type := "name"
    search_prompt :=
      "This is the Travis County Clerk search portal (tccsearch.org). I need to find property records for "
      ++ a.raw ++
      ". Look for a search form. The site may have tabs or links for different search types like 'Official Public Records', 'Real Property', or 'Document Search'. Click on 'Official Public Records' or 'Real Property' if available. If there is a search field for 'Name' or 'Grantor/Grantee', type the street name '"
      ++ a.street_name ++
      "' and search. If there is a direct address or property search, use '"
      ++ a.full_street ++
      "'. Click the Search button to run the search."
    deed_nav_prompt :=
      "Look at the search results. Find any result that matches the address '"
      ++ a.full_street ++ "' or contains '" ++ a.street_number ++
      "'. Click on that result to see its details. If you see a list of documents, look for Warranty Deeds, Grant Deeds, or Deeds of Trust. Click on one to see its full detail."
    lien_search_prompt :=
      "Go back to the search page and search for liens. Try searching for 'Tax Lien' or 'Judgment' in the document type filter combined with the street '"
      ++ a.street_name ++
      "'. If there's no document type filter, just search for '"
      ++ a.street_name ++ " lien'."
    notes := "Travis County uses tccsearch.org with OPR search. May require name-based search." }

/-- Harris County entry (`main.py` lines 197-218). -/
def harris_config (a : ParsedAddress) : CountyConfig :=
  { url := "https://www.cclerk.hctx.net/applications/websearch/RP.aspx"
    search_type := "name"
    search_prompt :=
      "This is the Harris County Clerk Real Property search page. There should be search fields for searching by name or instrument. In the name/search field, type '"
      ++ a.street_name ++
      "' and click Search or Submit. If you see date range fields, leave them at their defaults. If there is a 'Search Type' dropdown, select 'Name' or 'Property'. Click the Search button."
    deed_nav_prompt :=
      "In the search results, look for records matching '"
      ++ a.full_street ++
      "'. Click on the most recent Warranty Deed or General Warranty Deed. This will show the document details with grantor, grantee, and recording info."
    lien_search_prompt :=
      "Search for liens against this property. Go back to the search page and search for '"
      ++ a.street_name ++
      "' with document type 'Lien' or 'Tax Lien' if the filter is available." }

/-- Dallas County entry (`main.py` lines 219-237). -/
def dallas_config (a : ParsedAddress) : CountyConfig :=
  { url := "https://dallas.tx.publicsearch.us/"
    search_type := "fulltext"
    search_prompt :=
      "This is the Dallas County public search portal (publicsearch.us). There should be a search bar at the top. Type '"
      ++ a.full_street ++
      "' into the search bar and press Enter or click Search. This is a full-text search that accepts addresses directly."
    deed_nav_prompt :=
      "In the search results, look for documents related to '"
      ++ a.full_street ++
      "'. Click on any Warranty Deed or Deed document to see its details. Look for the grantor, grantee, recording date, and document number."
    lien_search_prompt :=
      "Search for liens by typing '" ++ a.street_name ++
      " lien' in the search bar, or use any filters to narrow to 'Lien' document type." }

/-- Tarrant County entry (`main.py` lines 238-252). -/
def tarrant_config (a : ParsedAddress) : CountyConfig :=
  { url := "https://tarrant.tx.publicsearch.us/"
    search_type := "fulltext"
    search_prompt :=
      "This is the Tarrant County public search portal (publicsearch.us). Type '"
      ++ a.full_street ++
      "' into the search bar and press Enter or click Search."
    deed_nav_prompt :=
      "In the search results, find documents matching '" ++ a.full_street ++
      "'. Click on any Warranty Deed to see its details."
    lien_search_prompt :=
      "Search for '" ++ a.street_name ++
      " lien' or filter results by Lien document type." }

/-- Bexar County entry (`main.py` lines 253-266). -/
def bexar_config (a : ParsedAddress) : CountyConfig :=
  { url := "https://bexar.tx.publicsearch.us/"
    search_type := "fulltext"
    search_prompt :=
      "This is the Bexar County public search portal (publicsearch.us). Type '"
      ++ a.full_street ++
      "' into the search bar and press Enter or click Search."
    deed_nav_prompt :=
      "Click on any Warranty Deed in the results matching '" ++ a.full_street ++ "'."
    lien_search_prompt :=
      "Search for liens: type '" ++ a.street_name ++ " lien' in the search bar." }

/-- King County entry (`main.py` lines 267-286). -/
def king_config (a : ParsedAddress) : CountyConfig :=
  { url := "https://recordsearch.kingcounty.gov/LandmarkWeb/"
    search_type := "name"
    search_prompt :=
      "This is King County (WA) Recorder's office search. Look for a search form. It may have options for 'Name Search', 'Document Number Search', or 'Recording Date Search'. Use the name search and type '"
      ++ a.street_name ++
      "'. If there's an address search option, use '" ++ a.full_street ++
      "'. Click Search."
    deed_nav_prompt :=
      "In the results, find records matching '" ++ a.full_street ++
      "'. Click on a Deed or Warranty Deed to see full details."
    lien_search_prompt :=
      "Search for liens: look for Tax Lien or Judgment records related to '"
      ++ a.street_name ++ "'." }

/-- Cook County entry (`main.py` lines 287-306). -/
def cook_config (a : ParsedAddress) : CountyConfig :=
  { url := "https://ccrd.cookcountyil.gov/RecorderDeedsWeb/"
    search_type := "name"
    search_prompt :=
      "This is Cook County (IL) Recorder of Deeds search. Look for search options — there may be tabs for 'PIN Search', 'Name Search', 'Address Search', or 'Document Search'. Try 'Address Search' first and enter '"
      ++ a.full_street ++
      "'. If no address search, use Name Search with '" ++ a.street_name ++
      "'. Click Search."
    deed_nav_prompt :=
      "In the results, find documents matching '" ++ a.full_street ++
      "'. Click on any Deed to see grantor, grantee, and recording info."
    lien_search_prompt :=
      "Search for liens by looking for Tax Lien documents related to '"
      ++ a.street_name ++ "' or the property PIN." }

/-- Maricopa County entry (`main.py` lines 307-326). -/
def maricopa_config (a : ParsedAddress) : CountyConfig :=
  { url := "https://recorder.maricopa.gov/recdocdata/"
    search_type := "name"
    search_prompt :=
      "This is the Maricopa County (AZ) Recorder's document search. Look for search fields. There may be options for 'Recording Number', 'Name', 'Legal', or 'Address'. Try the Name or Address search with '"
      ++ a.street_name ++
      "'. If there is a date range, set it to the last 30 years. Click Search or Submit."
    deed_nav_prompt :=
      "In the results, click on a Warranty Deed matching '" ++ a.full_street ++
      "' to see the full document details."
    lien_search_prompt :=
      "Search for liens: try searching for '" ++ a.street_name ++
      "' and filter by Lien document type if available." }

/-- Orange County entry (`main.py` lines 327-343). -/
def orange_config (a : ParsedAddress) : CountyConfig :=
  { url := "https://cr.ocgov.com/recorderworks/"
    search_type := "name"
    search_prompt :=
      "This is Orange County (CA) Recorder search. Look for search options — Name, Document Number, or Address. Use '"
      ++ a.street_name ++
      "' in the name or address field. Click Search."
    deed_nav_prompt :=
      "Click on a Grant Deed or Warranty Deed in the results that matches '"
      ++ a.full_street ++ "'."
    lien_search_prompt :=
      "Search for Tax Lien or Judgment records related to '" ++ a.street_name ++ "'." }

/-- San Diego County entry (`main.py` lines 344-360). -/
def san_diego_config (a : ParsedAddress) : CountyConfig :=
  { url := "https://arcc.sdcounty.ca.gov/Pages/OfficialRecords.aspx"
    search_type := "name"
    search_prompt :=
      "This is San Diego County (CA) Official Records search. Look for a grantor/grantee name search or document search. Enter '"
      ++ a.street_name ++
      "' in the search field. Click Search."
    deed_nav_prompt :=
      "In the results, click on a Grant Deed matching '" ++ a.full_street ++ "'."
    lien_search_prompt :=
      "Search for Tax Lien or Mechanic's Lien documents related to '"
      ++ a.street_name ++ "'." }

/-- Webb County entry (`main.py` lines 361-381). -/
def webb_config (a : ParsedAddress) : CountyConfig :=
  { url := "https://countyfusion5.kofiletech.us/countyweb/login.do?countyname=WebbTX"
    search_type := "fulltext"
    search_prompt :=
      "This is the Webb County TX public records portal. If there is a login or guest access button, click 'Login as Guest' or 'Public Access' or similar. Then look for a search option — search by name, address, or document type. Search for property records related to '"
      ++ a.raw ++
      "'. Try the address '" ++ a.full_street ++
      "' or the name on the deed. If there is a date range, set it to cover the last 20 years. Click Search."
    deed_nav_prompt :=
      "In the results, click on any Warranty Deed, Deed of Trust, or Grant Deed related to '"
      ++ a.full_street ++ "' or '" ++ a.street_name ++ "'."
    lien_search_prompt :=
      "Search for Tax Lien, Judgment, or Mechanic's Lien records related to '"
      ++ a.street_name ++ "' in Webb County." }

/-- Generic fallback for unknown counties (`main.py` lines 387-406). -/
def generic_config (county : String) (a : ParsedAddress) : CountyConfig :=
  { url := "https://www.google.com/search?q=" ++ quotePlus county ++ "+recorder+property+search"
    search_type := "fulltext"
    search_prompt :=
      "Search for property records for '" ++ a.raw ++ "' in " ++ county ++
      ". If you see a search form, try typing the address '" ++ a.full_street ++
      "' or the street name '" ++ a.street_name ++
      "' and clicking Search. If you see search type options, try 'Address' or 'Property' first."
    deed_nav_prompt :=
      "Click on any result related to '" ++ a.full_street ++
      "' that appears to be a deed or property record."
    lien_search_prompt :=
      "Search for liens against '" ++ a.street_name ++ "' in " ++ county ++ "."
    notes := "Unknown county — using generic search strategy for " ++ county }

/-- The `configs` dict of `_get_county_config` (`main.py` lines 168-382),
as an association list in source order. -/
def county_configs (a : ParsedAddress) : List (String × CountyConfig) :=
  [("Travis County", travis_config a),
   ("Harris County", harris_config a),
   ("Dallas County", dallas_config a),
   ("Tarrant County", tarrant_config a),
   ("Bexar County", bexar_config a),
   ("King County", king_config a),
   ("Cook County", cook_config a),
   ("Maricopa County", maricopa_config a),
   ("Orange County", orange_config a),
   ("San Diego County", san_diego_config a),
   ("Webb County", webb_config a)]

/-- The jurisdiction names present in the registry. -/
def registry_counties : List String :=
  ["Travis County", "Harris County", "Dallas County", "Tarrant County",
   "Bexar County", "King County", "Cook County", "Maricopa County",
   "Orange County", "San Diego County", "Webb County"]

/-- `_get_county_config` (`main.py` lines 156-406): look the county up in
the registry, falling back to the generic profile.  Never raises. -/
def get_county_config (county : String) (a : ParsedAddress) : CountyConfig :=
  ((county_configs a).lookup county).getD (generic_config county a)

/-- The three navigation prompts of a profile, in source order. -/
def prompts (c : CountyConfig) : List String :=
  [c.search_prompt, c.deed_nav_prompt, c.lien_search_prompt]

/-! ## Data classes (`main.py` lines 411-419 and the pydantic models of
`_browser_thread`, lines 648-715) -/

/-- A deed/ownership-transfer record (pydantic `DeedRecord`,
`main.py` lines 648-653): all strings, defaulting to empty. -/
structure DeedRecord where
  date : String := ""
  grantor : String := ""
  grantee : String := ""
  documentType : String := ""
  documentNumber : String := ""
deriving DecidableEq, Repr

/-- A lien record (pydantic `LienRecord`, `main.py` lines 706-712). -/
structure LienRecord where
  type : String := ""
  claimant : String := ""
  amount : String := ""
  dateRecorded : String := ""
  status : String := "Unknown"
  priority : String := "Medium"
deriving DecidableEq, Repr

/-- `TitleSearchResult` (`main.py` lines 411-419). -/
structure TitleSearchResult where
  address : String
  county : String
  ownership_chain : List DeedRecord
  liens : List LienRecord
  parcel_id : Option String
  legal_description : Option String
  source : String
deriving DecidableEq, Repr

/-! ## Simulation generator (`simulate_search`, `main.py` lines 892-943)

All `random.*` draws are explicit parameters.  `random.random() > p`
comparisons are modelled by their Boolean outcome.  `county.split()[0]`
raises `IndexError` when the county has no non-whitespace character, so
`simulate_search` returns an `Option`. -/

/-- Python `f"{n:02d}"` for the month/day draws (always in `1..28`). -/
def pad2 (n : Nat) : String := if n < 10 then "0" ++ Nat.repr n else Nat.repr n

/-- Group a reversed digit list in threes, for thousands separation. -/
def chunk3 : List Char → List (List Char)
  | [] => []
  | a :: b :: c :: rest => [a, b, c] :: chunk3 rest
  | xs => [xs]

/-- Python `f"{n:,}"`: decimal digits with comma thousands separators. -/
def commaFormat (n : Nat) : String :=
  ofChars ((joinAux [','] (chunk3 (Nat.repr n).data.reverse)).reverse)

/-- The random draws `simulate_search` makes, in source order: per chain
entry `i` a year jitter `randint(0, 2)`, a month `randint(1, 12)`, a day
`randint(1, 28)`, a `random.choice` index into the three document types
and a document number `randint(100000, 999999)`; then the two lien
inclusion draws (`random.random() > 0.4` / `> 0.7`) with their amount and
month draws, and the lot/block/parcel draws. -/
structure SimRand where
  jitter : Nat → Nat
  month : Nat → Nat
  day : Nat → Nat
  docType : Nat → Nat
  docNum : Nat → Nat
  taxLienDraw : Bool
  taxAmount : Nat
  mortgageLienDraw : Bool
  mortgageAmount : Nat
  mortgageMonth : Nat
  lotNum : Nat
  blkNum : Nat
  parcelNum : Nat

/-- The `randint` ranges of `simulate_search`'s draws. -/
def SimRand.InRange (r : SimRand) : Prop :=
  (∀ i, i < 4 → r.jitter i ≤ 2) ∧
  (∀ i, i < 4 → 1 ≤ r.month i ∧ r.month i ≤ 12) ∧
  (∀ i, i < 4 → 1 ≤ r.day i ∧ r.day i ≤ 28) ∧
  (∀ i, i < 4 → r.docType i < 3) ∧
  (∀ i, i < 4 → 100000 ≤ r.docNum i ∧ r.docNum i ≤ 999999) ∧
  (2000 ≤ r.taxAmount ∧ r.taxAmount ≤ 8000) ∧
  (150000 ≤ r.mortgageAmount ∧ r.mortgageAmount ≤ 450000) ∧
  (1 ≤ r.mortgageMonth ∧ r.mortgageMonth ≤ 12) ∧
  (1 ≤ r.lotNum ∧ r.lotNum ≤ 50) ∧
  (1 ≤ r.blkNum ∧ r.blkNum ≤ 20) ∧
  (1000000 ≤ r.parcelNum ∧ r.parcelNum ≤ 9999999)

instance (r : SimRand) : Decidable r.InRange := by
  unfold SimRand.InRange; infer_instance

/-- The fixed grantor/grantee sequence (`main.py` lines 895-900). -/
def owner_pairs : List (String × String) :=
  [("Sunset Realty LLC", "Johnson Family Trust"),
   ("Johnson Family Trust", "Robert & Mary Johnson"),
   ("First National Bank (Deed of Trust)", "Robert & Mary Johnson"),
   ("Johnson Family Trust", "First National Bank")]

/-- The document types `random.choice` picks from (`main.py` line 908). -/
def document_types : List String := ["Warranty Deed", "Deed of Trust", "Grant Deed"]

/-- The year of chain entry `i`:
`current_year - (i * 4) - random.randint(0, 2)` (`main.py` line 903). -/
def simYear (Y : Int) (r : SimRand) (i : Nat) : Int :=
  Y - (i : Int) * 4 - (r.jitter i : Int)

/-- The simulated ownership chain (`main.py` lines 901-910). -/
def sim_chain (Y : Int) (r : SimRand) : List DeedRecord :=
  owner_pairs.enum.map (fun p =>
    { date := toString (simYear Y r p.1) ++ "-" ++ pad2 (r.month p.1) ++ "-" ++ pad2 (r.day p.1)
      grantor := p.2.1
      grantee := p.2.2
      documentType := document_types.getD (r.docType p.1) ""
      documentNumber := toString (Y - (p.1 : Int)) ++ "-" ++ Nat.repr (r.docNum p.1) })

/-- The simulated liens (`main.py` lines 912-930): a tax lien when the
first draw fires, then a mortgage lien when the second one fires. -/
def sim_liens (county_word : String) (Y : Int) (r : SimRand) : List LienRecord :=
  (if r.taxLienDraw then
    [{ type := "Tax"
       claimant := county_word ++ " County Tax Authority"
       amount := "$" ++ commaFormat r.taxAmount
       dateRecorded := toString (Y - 1) ++ "-01-15"
       status := "Active"
       priority := "High" }]
   else []) ++
  (if r.mortgageLienDraw then
    [{ type := "Mortgage"
       claimant := "Quicken Loans / Rocket Mortgage"
       amount := "$" ++ commaFormat r.mortgageAmount
       dateRecorded := toString (Y - 6) ++ "-" ++ pad2 r.mortgageMonth ++ "-01"
       status := "Active"
       priority := "High" }]
   else [])

/-- `simulate_search` (`main.py` lines 892-943).  `county.split()[0]`
raises `IndexError` when the county contains no word, hence the
`Option`; otherwise the synthetic `TitleSearchResult` with
source `"simulation"`. -/
def simulate_search (address county : String) (Y : Int) (r : SimRand) :
    Option TitleSearchResult :=
  match pySplitWs county with
  | [] => none
  | w :: _ =>
    some { address := address
           county := county
           ownership_chain := sim_chain Y r
           liens := sim_liens w Y r
           parcel_id := some (Nat.repr r.parcelNum)
           legal_description := some ("LOT " ++ Nat.repr r.lotNum ++ ", BLK " ++
             Nat.repr r.blkNum ++ ", " ++ ofChars (w.data.map Char.toUpper) ++
             " GARDENS SUBDIVISION, " ++ w ++ " COUNTY")
           source := "simulation" }

/-- A concrete assignment of the simulation draws, used by witnesses. -/
def simRandW : SimRand :=
  { jitter := fun _ => 1
    month := fun _ => 6
    day := fun _ => 15
    docType := fun _ => 0
    docNum := fun _ => 123456
    taxLienDraw := true
    taxAmount := 3000
    mortgageLienDraw := false
    mortgageAmount := 200000
    mortgageMonth := 5
    lotNum := 10
    blkNum := 4
    parcelNum := 5550123 }

/-! ## Synchronous `/search` handler (`main.py` lines 1064-1096)

The endpoint validates the address, then always calls
`simulate_search` — it never consults `NOVA_ACT_AVAILABLE` or the AWS
credentials, so those flags are inert parameters of the model.  The
`except` branch (lines 1092-1096) catches `simulate_search`'s
`IndexError` and returns a 500. -/

/-- The JSON response of `POST /search`: HTTP status, `success` flag,
`data` payload, `error` string. -/
structure SearchResponse where
  status : Nat
  success : Bool
  data : Option TitleSearchResult
  error : Option String
deriving DecidableEq, Repr

/-- `(data.get("address") or "").strip()` (`main.py` line 1067). -/
def effective_address (address_field : Option String) : String :=
  pyStrip (address_field.getD "")

/-- `(data.get("county") or "Harris County").strip()`
(`main.py` line 1068): a missing or empty county defaults before the
strip, so a whitespace-only county strips to the empty string. -/
def effective_county (county_field : Option String) : String :=
  pyStrip (match county_field with
    | none => "Harris County"
    | some c => if c.data.isEmpty then "Harris County" else c)

/-- The `/search` handler (`main.py` lines 1064-1096).  The two Boolean
parameters model `NOVA_ACT_AVAILABLE` and the AWS credential presence;
the handler never reads them. -/
def search (nova_act_available aws_credentials : Bool)
    (address_field county_field : Option String) (Y : Int) (r : SimRand) :
    SearchResponse :=
  let address := effective_address address_field
  let county := effective_county county_field
  if address.data.isEmpty then
    { status := 400, success := false, data := none, error := some "address is required" }
  else
    match simulate_search address county Y r with
    | some result => { status := 200, success := true, data := some result, error := none }
    | none => { status := 500, success := false, data := none, error := some "list index out of range" }

/-! ## Run history store (`main.py` lines 62-94) -/

/-- A debug `RunEntry`: `run_id`, appended events (payloads only; the
wall-clock `ts`/`started_at`/`finished_at` stamps carry no claimed
behaviour), terminal `status` and optional `error`. -/
structure RunEntry where
  run_id : String
  events : List String := []
  status : Option String := none
  error : Option String := none
deriving DecidableEq, Repr

/-- The store's shared state: the `_active_sessions` dict (as an
association list in insertion order) and the `_recent_runs` deque.
All store operations run under the single `_lock`, so a sequence of
operations is their serialization order. -/
structure Store where
  active : List (String × RunEntry)
  recent : List RunEntry
deriving DecidableEq, Repr

/-- `MAX_DEBUG_ENTRIES` (`main.py` line 64). -/
def MAX_DEBUG_ENTRIES : Nat := 50

/-- The empty store at process start. -/
def empty_store : Store := ⟨[], []⟩

/-- Python dict assignment `d[k] = v`: replace in place when the key
exists, else append. -/
def dictInsert (l : List (String × RunEntry)) (k : String) (v : RunEntry) :
    List (String × RunEntry) :=
  if l.any (fun p => p.1 == k) then l.map (fun p => if p.1 == k then (k, v) else p)
  else l ++ [(k, v)]

/-- Python `d.pop(k, default)`: the stored value (if any) and the dict
without the key. -/
def dictPop (l : List (String × RunEntry)) (k : String) :
    Option RunEntry × List (String × RunEntry) :=
  match l.lookup k with
  | some v => (some v, l.filter (fun p => !(p.1 == k)))
  | none => (none, l)

/-- `deque(maxlen=50).append`: drop from the left when over capacity. -/
def dequeAppend (l : List RunEntry) (e : RunEntry) : List RunEntry :=
  let l' := l ++ [e]
  if MAX_DEBUG_ENTRIES < l'.length then l'.drop (l'.length - MAX_DEBUG_ENTRIES) else l'

/-- `_log_run` (`main.py` lines 71-83): append a timestamped event to the
active entry, creating it if absent. -/
def log_run (s : Store) (run_id : String) (data : String) : Store :=
  let entry := (s.active.lookup run_id).getD { run_id := run_id }
  let entry := { entry with events := entry.events ++ [data] }
  { s with active := dictInsert s.active run_id entry }

/-- The entry `_finish_run` pushes to the recent deque: status stamped,
error recorded when truthy (`main.py` lines 90-93). -/
def finishedEntry (e₀ : RunEntry) (status : String) (error : Option String) : RunEntry :=
  let entry := { e₀ with status := some status }
  match error with
  | some e => if e.data.isEmpty then entry else { entry with error := some e }
  | none => entry

/-- `_finish_run` (`main.py` lines 86-94): pop the entry from the active
map (default fresh), stamp completion status, append to the recent
deque. -/
def finish_run (s : Store) (run_id : String) (status : String)
    (error : Option String) : Store :=
  let popped := dictPop s.active run_id
  { active := popped.2
    recent := dequeAppend s.recent (finishedEntry (popped.1.getD { run_id := run_id }) status error) }

/-- One store operation: `_log_run` or `_finish_run`. -/
inductive StoreOp
  | record (run_id : String) (data : String)
  | finish (run_id : String) (status : String) (error : Option String)
deriving DecidableEq, Repr

/-- The runId an operation touches. -/
def StoreOp.runId : StoreOp → String
  | .record id _ => id
  | .finish id _ _ => id

/-- Apply one operation. -/
def applyOp (s : Store) : StoreOp → Store
  | .record id d => log_run s id d
  | .finish id st er => finish_run s id st er

/-- Apply a sequence of operations in order. -/
def applyOps (s : Store) : List StoreOp → Store
  | [] => s
  | o :: rest => applyOps (applyOp s o) rest

/-- Number of active-map slots keyed by `id`. -/
def activeCount (s : Store) (id : String) : Nat :=
  s.active.countP (fun p => p.1 == id)

/-- Number of recent-buffer entries whose `run_id` is `id`. -/
def recentCount (s : Store) (id : String) : Nat :=
  s.recent.countP (fun e => e.run_id == id)

/-- Total number of `RunEntry`s held for `id`, active or recent. -/
def runEntryCount (s : Store) (id : String) : Nat :=
  activeCount s id + recentCount s id

/-- Well-formed operation sequences: once a runId is finished, no later
operation touches it (each runId finished at most once, never recorded
again afterwards) — the discipline the request handlers follow. -/
def wfOps : List StoreOp → Bool
  | [] => true
  | .record _ _ :: rest => wfOps rest
  | .finish id _ _ :: rest => rest.all (fun o => o.runId != id) && wfOps rest

/-! ### The single-entry invariant -/

/-- The inductive invariant for well-formed traces: at most one active
slot and one recent entry per runId, never both, finished runIds
untouched by the remaining operations, and active entries keyed by
their own runId. -/
def StoreInv (s : Store) (future : List StoreOp) : Prop :=
  (∀ id, activeCount s id ≤ 1) ∧
  (∀ id, recentCount s id ≤ 1) ∧
  (∀ id, activeCount s id = 0 ∨ recentCount s id = 0) ∧
  (∀ id, 1 ≤ recentCount s id → ∀ o ∈ future, o.runId ≠ id) ∧
  (∀ p ∈ s.active, p.2.run_id = p.1)

/-! ## Agent run coordinator and streaming relay
(`_nova_act_stream`, `main.py` lines 445-887)

The coordinator runs in a worker thread, pushes `(type, payload)` tuples
onto a `queue.Queue`, then the sentinel; the relay polls the queue with
a 10 s `get` timeout, emits heartbeats, enforces the 300 s inactivity
ceiling, and finishes with exactly one result event.  Time is modelled
discretely: one empty poll = one 10 s `queue.get` timeout; a successful
`get` resets the inactivity clock (`last_event_time = time.time()`). -/

/-- A step timing record (`_timed_step`/`_end_step`, `main.py` lines
465-476).  The wall-clock `start`/`elapsed_s` floats are omitted: the
relay only tests the list for non-emptiness and forwards it. -/
structure StepTiming where
  name : String
  success : Bool := true
  error : Option String := none
deriving DecidableEq, Repr

/-- An event tuple the coordinator enqueues (`event_queue.put`). -/
inductive CoordEvent
  | progress (step message : String)
  | screenshot (label step data : String)
  | error (step message : String)
deriving DecidableEq, Repr

/-- A queue item: an event tuple or the `"__THREAD_DONE__"` sentinel. -/
inductive QueueItem
  | ev (e : CoordEvent)
  | sentinel
deriving DecidableEq, Repr

/-- The payload of the final result event
(`main.py` lines 876-887 and 995-1005).  `screenshots` is `none` when
the JSON object carries no `screenshots` key (the simulated stream). -/
structure ResultData where
  address : String
  county : String
  parcelId : Option String
  legalDescription : Option String
  ownershipChain : List DeedRecord
  liens : List LienRecord
  source : String
  screenshots : Option (List (String × String))
deriving DecidableEq, Repr

/-- One server-sent event, shaped `{type, ...fields}`. -/
inductive SseEvent
  | progress (step message : String)
  | screenshot (label step data : String)
  | live_view (url : String)
  | error (step message : String)
  | debug (step_timings : List StepTiming) (failed_step : Option String)
  | result (data : Option ResultData) (error : Option String) (failed_step : Option String)
deriving DecidableEq, Repr

/-- Relaying a queue tuple as an SSE event (`main.py` line 824). -/
def toSse : CoordEvent → SseEvent
  | .progress st msg => .progress st msg
  | .screenshot l st d => .screenshot l st d
  | .error st msg => .error st msg

/-- The `result_holder` dict.  Defaults mirror `dict.get`: a key never
written reads as falsy/`None`/empty. `partialFlag` models the
`"partial"` key. -/
structure ResultHolder where
  success : Bool := false
  partialFlag : Bool := false
  ownership_chain : List DeedRecord := []
  liens : List LienRecord := []
  parcel_id : Option String := none
  legal_description : Option String := none
  source : String := ""
  error : Option String := none
  failed_step : Option String := none
  step_timings : List StepTiming := []
deriving DecidableEq, Repr

/-- The holder of a run whose worker never wrote anything (timeout or
thread death before completion). -/
def initial_holder : ResultHolder := {}

/-- What `_browser_thread` produced when `_run()` returned without an
exception: the extracted data and whether the property search (primary
attempt, or the simplified fallback tried only after the primary
failed) succeeded. -/
structure RunData where
  ownership_chain : List DeedRecord := []
  liens : List LienRecord := []
  parcel_id : Option String := none
  legal_description : Option String := none
  primary_search_ok : Bool := false
  fallback_search_ok : Bool := false
deriving DecidableEq, Repr

/-- The final value of the `search_succeeded` flag (`main.py` lines
546-572): set by the primary `nova.act` attempt, or by the fallback
attempt run only when the primary raised. -/
def searchSucceeded (d : RunData) : Bool :=
  d.primary_search_ok || d.fallback_search_ok

/-- The coordinator's completion write (`main.py` lines 738-747).
`has_data` is Python's `len(chain) > 0 or len(liens) > 0 or parcel_id`;
only its truthiness is ever read, modelled as a `Bool` (`parcel_id` is
`None` or a non-empty string, so `pyTruthyStr` is its truthiness). -/
def completeHolder (d : RunData) (timings : List StepTiming) : ResultHolder :=
  { success := !d.ownership_chain.isEmpty || !d.liens.isEmpty || pyTruthyStr d.parcel_id
    partialFlag := !(!d.ownership_chain.isEmpty && searchSucceeded d)
    ownership_chain := d.ownership_chain
    liens := d.liens
    parcel_id := d.parcel_id
    legal_description := d.legal_description
    source := "nova_act_agentcore"
    step_timings := timings }

/-- The coordinator's exception write (`main.py` lines 750-761). -/
def failedHolder (current_step err : String) (timings : List StepTiming) : ResultHolder :=
  { success := false
    error := some err
    failed_step := some current_step
    step_timings := timings }

/-- One outcome of a `queue.get(timeout=10)` poll: an item arrived, or
the 10 s timeout fired (with the worker thread's liveness at that
moment). -/
inductive Poll
  | recv (item : QueueItem)
  | empty (thread_alive : Bool)
deriving DecidableEq, Repr

/-- How the relay's polling loop ended.  `exhausted` marks a schedule
that ran out before the loop exited — no real execution does this (the
loop always polls again), so claims are stated for the other exits. -/
inductive LoopExit
  | sentinel
  | threadDead
  | timedOut
  | exhausted
deriving DecidableEq, Repr

/-- The polling loop's outcome: the SSE events it yielded, the
screenshots it collected, how it exited, and the unconsumed remainder
of the poll schedule. -/
structure LoopResult where
  events : List SseEvent
  shots : List (String × String)
  exit : LoopExit
  unconsumed : List Poll
deriving DecidableEq, Repr

/-- The `queue.get` timeout, seconds (`main.py` line 801). -/
def POLL_TIMEOUT : Nat := 10

/-- The inactivity ceiling, seconds (`main.py` line 808). -/
def INACTIVITY_CEILING : Nat := 300

/-- The screenshots the loop collects from a relayed event
(`main.py` lines 822-823): `(label, step)`. -/
def screenshotsOf : CoordEvent → List (String × String)
  | .screenshot l st _ => [(l, st)]
  | _ => []

/-- The heartbeat message (`main.py` line 815). -/
def heartbeatMsg (elapsed : Nat) : String :=
  "Browser agent working... (" ++ Nat.repr elapsed ++ "s elapsed)"

/-- The relay's polling loop (`main.py` lines 795-824) over a schedule
of poll outcomes, carrying the seconds since the last received event:
sentinel stops it; a received tuple is relayed (screenshots collected)
and resets the clock; on an empty poll a dead worker stops it, the
inactivity ceiling yields the synthetic timeout error and stops it, and
otherwise a heartbeat is emitted. -/
def streamLoop : List Poll → Nat → List (String × String) → LoopResult
  | [], _, shots => ⟨[], shots, .exhausted, []⟩
  | .recv .sentinel :: rest, _, shots => ⟨[], shots, .sentinel, rest⟩
  | .recv (.ev e) :: rest, _, shots =>
    let r := streamLoop rest 0 (shots ++ screenshotsOf e)
    ⟨toSse e :: r.events, r.shots, r.exit, r.unconsumed⟩
  | .empty alive :: rest, sinceLast, shots =>
    if !alive then ⟨[], shots, .threadDead, rest⟩
    else if INACTIVITY_CEILING < sinceLast + POLL_TIMEOUT then
      ⟨[.error "timeout" "Browser agent timed out after 5 minutes of inactivity"],
        shots, .timedOut, rest⟩
    else
      let r := streamLoop rest (sinceLast + POLL_TIMEOUT) shots
      ⟨.progress "retrieval" (heartbeatMsg (sinceLast + POLL_TIMEOUT)) :: r.events,
        r.shots, r.exit, r.unconsumed⟩

/-- The relay's finalization (`main.py` lines 826-887): on a holder
without success, the error event, an optional debug event, and the
single result event with `data: None` and an error string; on success,
the two summary progress events, an optional debug event, the risk and
summary progress events, and the single result event carrying the
extracted data, with `" (partial)"` appended to the source when the
partial flag is set. -/
def finalize (address county : String) (rh : ResultHolder)
    (shots : List (String × String)) : List SseEvent :=
  if !rh.success then
    [.error (rh.failed_step.getD "unknown")
       ("Browser agent failed at '" ++ rh.failed_step.getD "unknown" ++ "': " ++
         (rh.error.getD "timeout or unknown error").take 200)] ++
    (if rh.step_timings.isEmpty then []
     else [.debug rh.step_timings (some (rh.failed_step.getD "unknown"))]) ++
    [.result none
       (some ("Could not access " ++ county ++ " county records: " ++
         (rh.error.getD "timeout or unknown error").take 200))
       (some (rh.failed_step.getD "unknown"))]
  else
    [.progress "chain" ("Extracted " ++ Nat.repr rh.ownership_chain.length ++ " deed record(s)."),
     .progress "liens" ("Found " ++ Nat.repr rh.liens.length ++ " lien(s).")] ++
    (if rh.step_timings.isEmpty then [] else [.debug rh.step_timings none]) ++
    [.progress "risk" "Running risk analysis on title data...",
     .progress "summary" "Generating title report...",
     .result (some { address := address
                     county := county
                     parcelId := rh.parcel_id
                     legalDescription := rh.legal_description
                     ownershipChain := rh.ownership_chain
                     liens := rh.liens
                     source := rh.source ++ (if rh.partialFlag then " (partial)" else "")
                     screenshots := some shots }) none none]

/-- The queue-consuming part of the relay: the polling loop followed by
the finalization (`main.py` lines 795-887).  On an exhausted schedule
the generator is still inside the loop, so no finalization events have
been observed yet. -/
def relay_tail (address county : String) (polls : List Poll) (rh : ResultHolder) :
    List SseEvent :=
  let L := streamLoop polls 0 []
  L.events ++
    (if L.exit = LoopExit.exhausted then [] else finalize address county rh L.shots)

/-- The full real-agent stream (`_nova_act_stream`): the starting
progress event, the live-view events when a URL materialized within the
bounded wait, then the loop and finalization. -/
def nova_act_stream (address county : String) (live_view_url : Option String)
    (polls : List Poll) (rh : ResultHolder) : List SseEvent :=
  let config := get_county_config county (parse_address address)
  [.progress "lookup"
     ("Starting cloud browser for " ++ county ++ " (" ++ config.search_type ++ " search)...")] ++
  (match live_view_url with
   | some url =>
     [.live_view url,
      .progress "retrieval" ("Cloud browser live — navigating to " ++ county ++ " recorder...")]
   | none => []) ++
  relay_tail address county polls rh

/-- The fixed `(phase, message)` script of the simulated stream
(`main.py` lines 969-980); the literal `time.sleep` delays pace the
stream but do not change the event sequence. -/
def sim_steps (address county : String) : List (String × String) :=
  [("lookup", "Browser agent launching (simulation mode)..."),
   ("lookup", "Navigating to " ++ county ++ " recorder website..."),
   ("retrieval", "Searching county index for \"" ++ address ++ "\"..."),
   ("retrieval", "Property record found — opening deed history..."),
   ("chain", "Reading deed transfer records from recorder database..."),
   ("chain", "Extracting grantor/grantee chain of title..."),
   ("liens", "Scanning " ++ county ++ " tax lien database..."),
   ("liens", "Checking judgment and mechanic's lien records..."),
   ("risk", "Analyzing title exceptions and encumbrances..."),
   ("summary", "Generating executive summary and PDF report...")]

/-- The phases that get a placeholder screenshot at first occurrence
(`main.py` line 982). -/
def screenshot_at : List (String × String) :=
  [("retrieval", "Search results page"), ("chain", "Deed history"), ("liens", "Lien records")]

/-- The fixed 150-byte gray JPEG of `_make_demo_screenshot`
(`main.py` lines 952-966). -/
def gray_jpeg : List Nat :=
  [0xFF, 0xD8, 0xFF, 0xE0, 0x00, 0x10, 0x4A, 0x46, 0x49, 0x46, 0x00, 0x01,
   0x01, 0x00, 0x00, 0x01, 0x00, 0x01, 0x00, 0x00, 0xFF, 0xDB, 0x00, 0x43,
   0x00, 0x08, 0x06, 0x06, 0x07, 0x06, 0x05, 0x08, 0x07, 0x07, 0x07, 0x09,
   0x09, 0x08, 0x0A, 0x0C, 0x14, 0x0D, 0x0C, 0x0B, 0x0B, 0x0C, 0x19, 0x12,
   0x13, 0x0F, 0x14, 0x1D, 0x1A, 0x1F, 0x1E, 0x1D, 0x1A, 0x1C, 0x1C, 0x20,
   0x24, 0x2E, 0x27, 0x20, 0x22, 0x2C, 0x23, 0x1C, 0x1C, 0x28, 0x37, 0x29,
   0x2C, 0x30, 0x31, 0x34, 0x34, 0x34, 0x1F, 0x27, 0x39, 0x3D, 0x38, 0x32,
   0x3C, 0x2E, 0x33, 0x34, 0x32, 0xFF, 0xC0, 0x00, 0x0B, 0x08, 0x00, 0x01,
   0x00, 0x01, 0x01, 0x01, 0x11, 0x00, 0xFF, 0xC4, 0x00, 0x1F, 0x00, 0x00,
   0x01, 0x05, 0x01, 0x01, 0x01, 0x01, 0x01, 0x01, 0x00, 0x00, 0x00, 0x00,
   0x00, 0x00, 0x00, 0x00, 0x01, 0x02, 0x03, 0x04, 0x05, 0x06, 0x07, 0x08,
   0x09, 0x0A, 0x0B, 0xFF, 0xDA, 0x00, 0x08, 0x01, 0x01, 0x00, 0x00, 0x3F,
   0x00, 0x7B, 0x40, 0x1B, 0xFF, 0xD9]

/-- The standard base64 alphabet. -/
def b64_alphabet : List Char :=
  "ABCDEFGHIJKLMNOPQRSTUVWXYZabcdefghijklmnopqrstuvwxyz0123456789+/".data

/-- Standard base64 encoding of a byte list (`base64.b64encode`). -/
def base64Encode : List Nat → List Char
  | [] => []
  | [a] =>
    [b64_alphabet.getD (a / 4) '?', b64_alphabet.getD (a % 4 * 16) '?', '=', '=']
  | [a, b] =>
    [b64_alphabet.getD (a / 4) '?', b64_alphabet.getD (a % 4 * 16 + b / 16) '?',
     b64_alphabet.getD (b % 16 * 4) '?', '=']
  | a :: b :: c :: rest =>
    b64_alphabet.getD (a / 4) '?' :: b64_alphabet.getD (a % 4 * 16 + b / 16) '?' ::
    b64_alphabet.getD (b % 16 * 4 + c / 64) '?' :: b64_alphabet.getD (c % 64) '?' ::
    base64Encode rest

/-- `_make_demo_screenshot` (`main.py` lines 951-967). -/
def make_demo_screenshot : String := ofChars (base64Encode gray_jpeg)

/-- The simulated stream's progress/screenshot interleaving
(`main.py` lines 985-991): each scripted progress event, with the
placeholder screenshot after the first occurrence of each designated
phase. -/
def sim_stream_go : List (String × String) → List String → List SseEvent
  | [], _ => []
  | (st, msg) :: rest, emitted =>
    SseEvent.progress st msg ::
    (match screenshot_at.lookup st with
     | some label =>
       if emitted.contains st then sim_stream_go rest emitted
       else SseEvent.screenshot label st make_demo_screenshot :: sim_stream_go rest (st :: emitted)
     | none => sim_stream_go rest emitted)

/-- `_simulate_stream` (`main.py` lines 946-1005): the scripted events,
then the single result event with the simulated data — unless
`simulate_search` raises (whitespace-only county), which aborts the
generator with no result event. -/
def simulate_stream (address county : String) (Y : Int) (r : SimRand) : List SseEvent :=
  sim_stream_go (sim_steps address county) [] ++
  (match simulate_search address county Y r with
   | some sim =>
     [SseEvent.result
       (some { address := sim.address
               county := sim.county
               parcelId := sim.parcel_id
               legalDescription := sim.legal_description
               ownershipChain := sim.ownership_chain
               liens := sim.liens
               source := sim.source
               screenshots := none }) none none]
   | none => [])

/-- `run_nova_act_streaming` (`main.py` lines 1008-1016): the real
stream when the SDK is loaded and credentials are present, else the
simulation. -/
def run_nova_act_streaming (nova_act_available aws_credentials : Bool)
    (address county : String) (live_view_url : Option String)
    (polls : List Poll) (rh : ResultHolder) (Y : Int) (r : SimRand) : List SseEvent :=
  if nova_act_available && aws_credentials then
    nova_act_stream address county live_view_url polls rh
  else
    simulate_stream address county Y r

/-- The `/search-stream` response: 400 on a missing address, else the
event stream. -/
inductive StreamResponse
  | badRequest
  | eventStream (events : List SseEvent)
deriving DecidableEq, Repr

/-- The `/search-stream` handler (`main.py` lines 1099-1123). -/
def search_stream (nova_act_available aws_credentials : Bool)
    (address_field county_field : Option String)
    (live_view_url : Option String) (polls : List Poll) (rh : ResultHolder)
    (Y : Int) (r : SimRand) : StreamResponse :=
  let address := effective_address address_field
  let county := effective_county county_field
  if address.data.isEmpty then .badRequest
  else .eventStream (run_nova_act_streaming nova_act_available aws_credentials
    address county live_view_url polls rh Y r)

/-- Result events in a stream. -/
def isResult : SseEvent → Bool
  | .result _ _ _ => true
  | _ => false

/-- How many result events a stream yields. -/
def countResults (evs : List SseEvent) : Nat := (evs.filter isResult).length

/-- The relay's synthetic inactivity-timeout error event. -/
def isTimeoutError : SseEvent → Bool
  | .error st msg =>
    st == "timeout" && msg == "Browser agent timed out after 5 minutes of inactivity"
  | _ => false

/-- The source string carried by the first result event with data. -/
def resultSourceOf (evs : List SseEvent) : Option String :=
  (evs.filterMap fun e =>
    match e with
    | .result (some dta) _ _ => some dta.source
    | _ => none).head?

/-! ## Literal reading of claim C1 -/

/-- The literal reading of claim C1 at a completed (non-aborted) run
outcome `d`: success iff any data, partial iff no chain or the PRIMARY
search instruction did not succeed, and partial implies the emitted
result's source carries the `" (partial)"` suffix. -/
def C1_claim_at (address county : String) (d : RunData) : Prop :=
  ((completeHolder d []).success = true ↔
    (d.ownership_chain ≠ [] ∨ d.liens ≠ [] ∨ pyTruthyStr d.parcel_id = true)) ∧
  ((completeHolder d []).partialFlag = true ↔
    (d.ownership_chain = [] ∨ d.primary_search_ok = false)) ∧
  ((completeHolder d []).partialFlag = true →
    ∃ src, resultSourceOf (finalize address county (completeHolder d []) []) = some src ∧
      strEndsWith src " (partial)")

/-! ## Theorems: helper lemmas and the claims C1-C10 -/

theorem scSelf (v : String) : strContains v v := ⟨[], [], by simp⟩

theorem scL {s : String} (t : String) {v : String} (h : strContains s v) :
    strContains (s ++ t) v := by
  obtain ⟨p, q, hp⟩ := h
  exact ⟨p, q ++ t.data, by rw [String.data_append, ← hp]; simp⟩

theorem scR (s : String) {t v : String} (h : strContains t v) :
    strContains (s ++ t) v := by
  obtain ⟨p, q, hp⟩ := h
  exact ⟨s.data ++ p, q, by rw [String.data_append, ← hp]; simp⟩

theorem strEndsWith_append (a b : String) : strEndsWith (a ++ b) b :=
  ⟨a.data, by rw [String.data_append]⟩

/-- A string built as `x ++ v ++ t` contains `v` verbatim. -/
theorem containsLast (x v t : String) : strContains (x ++ v ++ t) v :=
  scL t (scR x (scSelf v))

/-! ## Claims C5, C6, C7 -/

/-- Claim C7, counterexample: on the malformed input `"not an address"`
the parser does NOT leave every field except `raw` empty — `full_street`
keeps the whole first comma segment, i.e. the entire input. -/
theorem C7_counterexample :
    ¬ ((parse_address "not an address").street_number = "" ∧
       (parse_address "not an address").street_name = "" ∧
       (parse_address "not an address").city = "" ∧
       (parse_address "not an address").state = "" ∧
       (parse_address "not an address").zip = "" ∧
       (parse_address "not an address").full_street = "" ∧
       (parse_address "not an address").raw = "not an address") := by decide

/-- Claim C7 (corrected): `parse_address "not an address"` returns,
without raising, a record whose fields are all empty except `raw` and
`full_street`, both holding the original input. -/
theorem C7_parse_malformed :
    parse_address "not an address" =
      { street_number := "", street_name := "", city := "", state := "",
        zip := "", full_street := "not an address", raw := "not an address" } := by
  decide

/-- Claim C5, counterexample: for Bexar County and the parsed address
`"123 Main St, San Antonio, TX 78205"` the city value `"San Antonio"` is
not interpolated into any prompt (and the lien prompt does not even
contain the full street), so the claim as stated fails. -/
theorem C5_counterexample :
    ¬ ((get_county_config "Bexar County"
          (parse_address "123 Main St, San Antonio, TX 78205")).url ≠ "" ∧
       ∀ p ∈ prompts (get_county_config "Bexar County"
                (parse_address "123 Main St, San Antonio, TX 78205")),
         strContains p (parse_address "123 Main St, San Antonio, TX 78205").full_street ∧
         strContains p (parse_address "123 Main St, San Antonio, TX 78205").city) := by
  decide

/-- Claim C5 (corrected): for every jurisdiction present in the registry
and every parsed address, the profile's URL is non-empty and each of the
three prompts contains verbatim at least one of the interpolated
street-derived values of the parsed address (raw input, full street,
street number or street name); the city is not interpolated. -/
theorem C5_registry_prompts (county : String) (a : ParsedAddress)
    (h : county ∈ registry_counties) :
    (get_county_config county a).url ≠ "" ∧
    ∀ p ∈ prompts (get_county_config county a),
      strContains p a.raw ∨ strContains p a.full_street ∨
      strContains p a.street_number ∨ strContains p a.street_name := by
  simp only [registry_counties] at h
  fin_cases h
  · have e : get_county_config "Travis County" a = travis_config a := rfl
    rw [e]
    refine ⟨by simp [travis_config], ?_⟩
    intro p hp
    simp only [travis_config, prompts, List.mem_cons, List.not_mem_nil, or_false] at hp
    rcases hp with rfl | rfl | rfl
    · exact Or.inr (Or.inl (containsLast _ _ _))
    · exact Or.inr (Or.inr (Or.inl (containsLast _ _ _)))
    · exact Or.inr (Or.inr (Or.inr (containsLast _ _ _)))
  · have e : get_county_config "Harris County" a = harris_config a := rfl
    rw [e]
    refine ⟨by simp [harris_config], ?_⟩
    intro p hp
    simp only [harris_config, prompts, List.mem_cons, List.not_mem_nil, or_false] at hp
    rcases hp with rfl | rfl | rfl
    · exact Or.inr (Or.inr (Or.inr (containsLast _ _ _)))
    · exact Or.inr (Or.inl (containsLast _ _ _))
    · exact Or.inr (Or.inr (Or.inr (containsLast _ _ _)))
  · have e : get_county_config "Dallas County" a = dallas_config a := rfl
    rw [e]
    refine ⟨by simp [dallas_config], ?_⟩
    intro p hp
    simp only [dallas_config, prompts, List.mem_cons, List.not_mem_nil, or_false] at hp
    rcases hp with rfl | rfl | rfl
    · exact Or.inr (Or.inl (containsLast _ _ _))
    · exact Or.inr (Or.inl (containsLast _ _ _))
    · exact Or.inr (Or.inr (Or.inr (containsLast _ _ _)))
  · have e : get_county_config "Tarrant County" a = tarrant_config a := rfl
    rw [e]
    refine ⟨by simp [tarrant_config], ?_⟩
    intro p hp
    simp only [tarrant_config, prompts, List.mem_cons, List.not_mem_nil, or_false] at hp
    rcases hp with rfl | rfl | rfl
    · exact Or.inr (Or.inl (containsLast _ _ _))
    · exact Or.inr (Or.inl (containsLast _ _ _))
    · exact Or.inr (Or.inr (Or.inr (containsLast _ _ _)))
  · have e : get_county_config "Bexar County" a = bexar_config a := rfl
    rw [e]
    refine ⟨by simp [bexar_config], ?_⟩
    intro p hp
    simp only [bexar_config, prompts, List.mem_cons, List.not_mem_nil, or_false] at hp
    rcases hp with rfl | rfl | rfl
    · exact Or.inr (Or.inl (containsLast _ _ _))
    · exact Or.inr (Or.inl (containsLast _ _ _))
    · exact Or.inr (Or.inr (Or.inr (containsLast _ _ _)))
  · have e : get_county_config "King County" a = king_config a := rfl
    rw [e]
    refine ⟨by simp [king_config], ?_⟩
    intro p hp
    simp only [king_config, prompts, List.mem_cons, List.not_mem_nil, or_false] at hp
    rcases hp with rfl | rfl | rfl
    · exact Or.inr (Or.inl (containsLast _ _ _))
    · exact Or.inr (Or.inl (containsLast _ _ _))
    · exact Or.inr (Or.inr (Or.inr (containsLast _ _ _)))
  · have e : get_county_config "Cook County" a = cook_config a := rfl
    rw [e]
    refine ⟨by simp [cook_config], ?_⟩
    intro p hp
    simp only [cook_config, prompts, List.mem_cons, List.not_mem_nil, or_false] at hp
    rcases hp with rfl | rfl | rfl
    · exact Or.inr (Or.inr (Or.inr (containsLast _ _ _)))
    · exact Or.inr (Or.inl (containsLast _ _ _))
    · exact Or.inr (Or.inr (Or.inr (containsLast _ _ _)))
  · have e : get_county_config "Maricopa County" a = maricopa_config a := rfl
    rw [e]
    refine ⟨by simp [maricopa_config], ?_⟩
    intro p hp
    simp only [maricopa_config, prompts, List.mem_cons, List.not_mem_nil, or_false] at hp
    rcases hp with rfl | rfl | rfl
    · exact Or.inr (Or.inr (Or.inr (containsLast _ _ _)))
    · exact Or.inr (Or.inl (containsLast _ _ _))
    · exact Or.inr (Or.inr (Or.inr (containsLast _ _ _)))
  · have e : get_county_config "Orange County" a = orange_config a := rfl
    rw [e]
    refine ⟨by simp [orange_config], ?_⟩
    intro p hp
    simp only [orange_config, prompts, List.mem_cons, List.not_mem_nil, or_false] at hp
    rcases hp with rfl | rfl | rfl
    · exact Or.inr (Or.inr (Or.inr (containsLast _ _ _)))
    · exact Or.inr (Or.inl (containsLast _ _ _))
    · exact Or.inr (Or.inr (Or.inr (containsLast _ _ _)))
  · have e : get_county_config "San Diego County" a = san_diego_config a := rfl
    rw [e]
    refine ⟨by simp [san_diego_config], ?_⟩
    intro p hp
    simp only [san_diego_config, prompts, List.mem_cons, List.not_mem_nil, or_false] at hp
    rcases hp with rfl | rfl | rfl
    · exact Or.inr (Or.inr (Or.inr (containsLast _ _ _)))
    · exact Or.inr (Or.inl (containsLast _ _ _))
    · exact Or.inr (Or.inr (Or.inr (containsLast _ _ _)))
  · have e : get_county_config "Webb County" a = webb_config a := rfl
    rw [e]
    refine ⟨by simp [webb_config], ?_⟩
    intro p hp
    simp only [webb_config, prompts, List.mem_cons, List.not_mem_nil, or_false] at hp
    rcases hp with rfl | rfl | rfl
    · exact Or.inr (Or.inl (containsLast _ _ _))
    · exact Or.inr (Or.inr (Or.inr (containsLast _ _ _)))
    · exact Or.inr (Or.inr (Or.inr (containsLast _ _ _)))

/-- Witness for C5's theorem at Travis County and a concrete parsed
address. -/
theorem C5_registry_prompts_witness :
    ("Travis County" ∈ registry_counties) ∧
    ((get_county_config "Travis County" (parse_address "123 Main St, Austin, TX 78701")).url ≠ "" ∧
     ∀ p ∈ prompts (get_county_config "Travis County" (parse_address "123 Main St, Austin, TX 78701")),
       strContains p (parse_address "123 Main St, Austin, TX 78701").raw ∨
       strContains p (parse_address "123 Main St, Austin, TX 78701").full_street ∨
       strContains p (parse_address "123 Main St, Austin, TX 78701").street_number ∨
       strContains p (parse_address "123 Main St, Austin, TX 78701").street_name) :=
  ⟨by decide, C5_registry_prompts "Travis County" (parse_address "123 Main St, Austin, TX 78701") (by decide)⟩

/-- Claim C6 (confirmed): a jurisdiction absent from the registry gets
the generic fallback profile, whose URL is the web-search query
`"{county} recorder property search"` (quote-plus encoded); the lookup
is total.  The generic profile's prompts instruct the agent to use any
visible search form (`generic_config`). -/
theorem C6_unknown_county_fallback (county : String) (a : ParsedAddress)
    (h : county ∉ registry_counties) :
    get_county_config county a = generic_config county a ∧
    (get_county_config county a).url =
      "https://www.google.com/search?q=" ++ quotePlus county ++ "+recorder+property+search" := by
  simp only [registry_counties, List.mem_cons, List.not_mem_nil, or_false, not_or] at h
  obtain ⟨h1, h2, h3, h4, h5, h6, h7, h8, h9, h10, h11⟩ := h
  have e : get_county_config county a = generic_config county a := by
    simp [get_county_config, county_configs, List.lookup,
      beq_eq_false_iff_ne.mpr h1, beq_eq_false_iff_ne.mpr h2, beq_eq_false_iff_ne.mpr h3,
      beq_eq_false_iff_ne.mpr h4, beq_eq_false_iff_ne.mpr h5, beq_eq_false_iff_ne.mpr h6,
      beq_eq_false_iff_ne.mpr h7, beq_eq_false_iff_ne.mpr h8, beq_eq_false_iff_ne.mpr h9,
      beq_eq_false_iff_ne.mpr h10, beq_eq_false_iff_ne.mpr h11]
  exact ⟨e, by rw [e]; rfl⟩

/-- Witness for C6's theorem at a concrete unknown county. -/
theorem C6_unknown_county_fallback_witness :
    ("Atlantis County" ∉ registry_counties) ∧
    (get_county_config "Atlantis County" (parse_address "456 Ocean Ave, Atlantis, FL 33462") =
       generic_config "Atlantis County" (parse_address "456 Ocean Ave, Atlantis, FL 33462") ∧
     (get_county_config "Atlantis County" (parse_address "456 Ocean Ave, Atlantis, FL 33462")).url =
       "https://www.google.com/search?q=" ++ quotePlus "Atlantis County" ++ "+recorder+property+search") :=
  ⟨by decide,
   C6_unknown_county_fallback "Atlantis County"
     (parse_address "456 Ocean Ave, Atlantis, FL 33462") (by decide)⟩

/-- Exact decimal digit count for the parcel draw's range. -/
theorem digits_len_seven {n : Nat} (h1 : 1000000 ≤ n) (h2 : n ≤ 9999999) :
    (Nat.digits 10 n).length = 7 := by
  have hn : n ≠ 0 := by omega
  rw [Nat.digits_len 10 n (by norm_num) hn]
  have : Nat.log 10 n = 6 := by
    apply Nat.log_eq_of_pow_le_of_lt_pow <;> norm_num <;> omega
  omega

theorem toDigitsCore_length_eq (b : Nat) (hb : 2 ≤ b) :
    ∀ f n l, 0 < n → n ≤ f →
      (Nat.toDigitsCore b f n l).length = (Nat.digits b n).length + l.length := by
  intro f
  induction f with
  | zero => intro n l hn hf; omega
  | succ f ih =>
    intro n l hn hf
    rw [Nat.toDigitsCore]
    by_cases hq : n / b = 0
    · rw [if_pos hq]
      rw [Nat.digits_def' (by omega : 1 < b) hn, hq, Nat.digits_zero]
      simp
      omega
    · rw [if_neg hq]
      have h1 : 0 < n / b := Nat.pos_of_ne_zero hq
      have h2 : n / b ≤ f := by
        have : n / b < n := Nat.div_lt_self hn (by omega)
        omega
      rw [ih (n / b) (Nat.digitChar (n % b) :: l) h1 h2]
      rw [Nat.digits_def' (by omega : 1 < b) hn]
      simp
      omega

theorem repr_length_eq_digits (n : Nat) (hn : 0 < n) :
    (Nat.repr n).length = (Nat.digits 10 n).length := by
  show (Nat.toDigits 10 n).asString.length = _
  rw [Nat.toDigits]
  have := toDigitsCore_length_eq 10 (by norm_num) (n + 1) n [] hn (by omega)
  simpa [String.length, List.asString] using this

theorem digitChar_isDigit (k : Nat) (hk : k < 10) :
    (Nat.digitChar k).isDigit = true := by
  interval_cases k <;> decide

theorem toDigitsCore_all_digits (b : Nat) (hb : b = 10) :
    ∀ f n l, (∀ c ∈ l, c.isDigit = true) →
      ∀ c ∈ Nat.toDigitsCore b f n l, c.isDigit = true := by
  intro f
  induction f with
  | zero => intro n l hl c hc; exact hl c hc
  | succ f ih =>
    intro n l hl c hc
    rw [Nat.toDigitsCore] at hc
    have hd : (Nat.digitChar (n % b)).isDigit = true := by
      subst hb
      exact digitChar_isDigit _ (Nat.mod_lt _ (by norm_num))
    by_cases hq : n / b = 0
    · rw [if_pos hq] at hc
      rcases List.mem_cons.mp hc with rfl | hc'
      · exact hd
      · exact hl c hc'
    · rw [if_neg hq] at hc
      refine ih (n / b) (Nat.digitChar (n % b) :: l) ?_ c hc
      intro c' hc'
      rcases List.mem_cons.mp hc' with rfl | hc''
      · exact hd
      · exact hl c' hc''

theorem repr_all_digits (n : Nat) :
    (Nat.repr n).data.all Char.isDigit = true := by
  rw [List.all_eq_true]
  intro c hc
  have : c ∈ Nat.toDigitsCore 10 (n + 1) n [] := by
    simpa [Nat.repr, Nat.toDigits, List.asString] using hc
  exact toDigitsCore_all_digits 10 rfl (n + 1) n [] (by simp) c this

/-- Claim C9 (confirmed): every `TitleSearchResult` the simulation
generator produces has an ownership chain of exactly 4 entries whose
years (the `simYear` values its date strings are built from) are
strictly descending in entry index, a liens list of length at most 2
(0, 1 or 2), and a parcel id that is the decimal representation of a
number with exactly 7 decimal digits. -/
theorem C9_simulation_invariants (address county : String) (Y : Int) (r : SimRand)
    (hr : r.InRange) (res : TitleSearchResult)
    (h : simulate_search address county Y r = some res) :
    res.ownership_chain.length = 4 ∧
    (∀ i, ∀ hi : i < res.ownership_chain.length,
       (res.ownership_chain.get ⟨i, hi⟩).date =
         toString (simYear Y r i) ++ "-" ++ pad2 (r.month i) ++ "-" ++ pad2 (r.day i)) ∧
    (∀ i, i + 1 < 4 → simYear Y r (i + 1) < simYear Y r i) ∧
    res.liens.length ≤ 2 ∧
    res.parcel_id = some (Nat.repr r.parcelNum) ∧
    (Nat.digits 10 r.parcelNum).length = 7 ∧
    (Nat.repr r.parcelNum).length = 7 ∧
    (Nat.repr r.parcelNum).data.all Char.isDigit = true := by
  obtain ⟨hjit, _, _, _, _, _, _, _, _, _, hparc⟩ := hr
  cases hs : pySplitWs county with
  | nil => rw [simulate_search, hs] at h; exact absurd h (by simp)
  | cons w ws =>
    rw [simulate_search, hs] at h
    injection h with h
    subst h
    refine ⟨rfl, ?_, ?_, ?_, rfl, digits_len_seven hparc.1 hparc.2, ?_,
      repr_all_digits _⟩
    · intro i hi
      have h4 : i < 4 := hi
      interval_cases i <;> rfl
    · intro i hi
      have b0 : r.jitter i ≤ 2 := hjit i (by omega)
      simp only [simYear]
      push_cast
      omega
    · cases htax : r.taxLienDraw <;> cases hmort : r.mortgageLienDraw <;>
        simp [sim_liens, htax, hmort]
    · rw [repr_length_eq_digits _ (by omega)]
      exact digits_len_seven hparc.1 hparc.2

/-- Witness for C9's theorem at a concrete address, county, year and
draw assignment. -/
theorem C9_simulation_invariants_witness :
    simRandW.InRange ∧
    ∃ res, simulate_search "123 Main St" "Harris County" 2026 simRandW = some res ∧
      (res.ownership_chain.length = 4 ∧
       (∀ i, ∀ hi : i < res.ownership_chain.length,
          (res.ownership_chain.get ⟨i, hi⟩).date =
            toString (simYear 2026 simRandW i) ++ "-" ++ pad2 (simRandW.month i) ++ "-" ++
              pad2 (simRandW.day i)) ∧
       (∀ i, i + 1 < 4 → simYear 2026 simRandW (i + 1) < simYear 2026 simRandW i) ∧
       res.liens.length ≤ 2 ∧
       res.parcel_id = some (Nat.repr simRandW.parcelNum) ∧
       (Nat.digits 10 simRandW.parcelNum).length = 7 ∧
       (Nat.repr simRandW.parcelNum).length = 7 ∧
       (Nat.repr simRandW.parcelNum).data.all Char.isDigit = true) :=
  ⟨by decide, _, rfl,
    C9_simulation_invariants "123 Main St" "Harris County" 2026 simRandW (by decide) _ rfl⟩

/-- Claim C10, counterexample: a request with a non-empty address but a
whitespace-only county string is answered with HTTP 500 and no data —
`county.split()[0]` raises inside `simulate_search` — so the claim that
every non-empty-address request returns 200 with simulation data fails. -/
theorem C10_counterexample :
    (search true true (some "123 Main St") (some " ") 2026 simRandW).status = 500 ∧
    (search true true (some "123 Main St") (some " ") 2026 simRandW).data = none := by
  constructor <;> rfl

/-- Claim C10 (corrected): whenever the stripped address is non-empty
and the effective county contains at least one word, `POST /search`
returns HTTP 200 with `success`, its payload is exactly the simulation
generator's output (which carries source `"simulation"`), and the
response does not depend on the agent-SDK or credential flags — the
synchronous endpoint never invokes the real agent. -/
theorem C10_search_simulation (nova_a aws_a nova_b aws_b : Bool)
    (address_field county_field : Option String) (Y : Int) (r : SimRand)
    (haddr : effective_address address_field ≠ "")
    (hcounty : pySplitWs (effective_county county_field) ≠ []) :
    search nova_a aws_a address_field county_field Y r =
      search nova_b aws_b address_field county_field Y r ∧
    (search nova_a aws_a address_field county_field Y r).status = 200 ∧
    (search nova_a aws_a address_field county_field Y r).success = true ∧
    (search nova_a aws_a address_field county_field Y r).data =
      simulate_search (effective_address address_field) (effective_county county_field) Y r ∧
    (∀ res, (search nova_a aws_a address_field county_field Y r).data = some res →
       res.source = "simulation") := by
  have hne : (effective_address address_field).data.isEmpty = false := by
    cases hd : (effective_address address_field).data with
    | nil => exact absurd (String.ext (hd.trans rfl)) haddr
    | cons c cs => rfl
  cases hs : pySplitWs (effective_county county_field) with
  | nil => exact absurd hs hcounty
  | cons w ws =>
    refine ⟨rfl, ?_, ?_, ?_, ?_⟩
    · simp only [search, hne, Bool.false_eq_true, if_false, simulate_search, hs]
    · simp only [search, hne, Bool.false_eq_true, if_false, simulate_search, hs]
    · simp only [search, hne, Bool.false_eq_true, if_false, simulate_search, hs]
    · intro res hres
      simp only [search, hne, Bool.false_eq_true, if_false, simulate_search, hs] at hres
      injection hres with hres
      rw [← hres]

/-- Witness for C10's theorem: a concrete request with the county field
absent (defaulting to Harris County). -/
theorem C10_search_simulation_witness :
    (effective_address (some "123 Main St") ≠ "") ∧
    (pySplitWs (effective_county none) ≠ []) ∧
    ((search false false (some "123 Main St") none 2026 simRandW).status = 200 ∧
     (search false false (some "123 Main St") none 2026 simRandW).success = true) :=
  ⟨by decide, by decide,
   (C10_search_simulation false false true true (some "123 Main St") none 2026 simRandW
      (by decide) (by decide)).2.1,
   (C10_search_simulation false false true true (some "123 Main St") none 2026 simRandW
      (by decide) (by decide)).2.2.1⟩

/-! ### Counting lemmas -/

theorem finishedEntry_run_id (e₀ : RunEntry) (st : String) (er : Option String) :
    (finishedEntry e₀ st er).run_id = e₀.run_id := by
  unfold finishedEntry
  cases er with
  | none => rfl
  | some e => by_cases he : e.data.isEmpty <;> simp [he]

theorem finishedEntry_status (e₀ : RunEntry) (st : String) (er : Option String) :
    (finishedEntry e₀ st er).status = some st := by
  unfold finishedEntry
  cases er with
  | none => rfl
  | some e => by_cases he : e.data.isEmpty <;> simp [he]

theorem keyCount_map_replace (l : List (String × RunEntry)) (k : String)
    (v : RunEntry) (k' : String) :
    ((l.map (fun p => if p.1 == k then (k, v) else p)).countP (fun p => p.1 == k')) =
      l.countP (fun p => p.1 == k') := by
  rw [List.countP_map]
  apply List.countP_congr
  intro p _
  by_cases h : p.1 = k
  · simp [Function.comp, h]
  · simp [Function.comp, h]

theorem lookup_none_iff_countP (l : List (String × RunEntry)) (k : String) :
    l.lookup k = none ↔ l.countP (fun p => p.1 == k) = 0 := by
  induction l with
  | nil => simp
  | cons p rest ih =>
    rcases p with ⟨pk, pv⟩
    by_cases h : k = pk
    · subst h
      simp [List.lookup, List.countP_cons]
    · simp only [List.lookup, beq_eq_false_iff_ne.mpr h, List.countP_cons,
        beq_eq_false_iff_ne.mpr (Ne.symm h), Bool.false_eq_true, if_false, Nat.add_zero]
      exact ih

theorem any_key_false_countP (l : List (String × RunEntry)) (k : String)
    (h : l.any (fun p => p.1 == k) = false) :
    l.countP (fun p => p.1 == k) = 0 := by
  rw [List.countP_eq_zero]
  intro p hp
  have := List.any_eq_false.mp h p hp
  simpa using this

theorem countP_filter_not_self (l : List (String × RunEntry)) (k : String) :
    (l.filter (fun p => !(p.1 == k))).countP (fun p => p.1 == k) = 0 := by
  rw [List.countP_eq_zero]
  intro p hp
  have := List.of_mem_filter hp
  simpa using this

theorem countP_filter_not_other (l : List (String × RunEntry)) (k k' : String)
    (h : k' ≠ k) :
    (l.filter (fun p => !(p.1 == k))).countP (fun p => p.1 == k') =
      l.countP (fun p => p.1 == k') := by
  rw [List.countP_filter]
  apply List.countP_congr
  intro p _
  by_cases hp : p.1 = k'
  · simp [hp, beq_iff_eq, h]
  · simp [hp]

theorem dequeAppend_countP_le (l : List RunEntry) (e : RunEntry)
    (q : RunEntry → Bool) :
    (dequeAppend l e).countP q ≤ l.countP q + [e].countP q := by
  simp only [dequeAppend]
  split
  · calc ((l ++ [e]).drop (((l ++ [e]).length) - MAX_DEBUG_ENTRIES)).countP q
        ≤ (l ++ [e]).countP q := (List.drop_sublist _ _).countP_le q
      _ = l.countP q + [e].countP q := List.countP_append _ _ _
  · exact le_of_eq (List.countP_append _ _ _)

theorem dequeAppend_countP_exact (l : List RunEntry) (e : RunEntry)
    (q : RunEntry → Bool) (hq : q e = true) (h0 : l.countP q = 0) :
    (dequeAppend l e).countP q = 1 := by
  simp only [dequeAppend]
  have happ : (l ++ [e]).countP q = 1 := by
    rw [List.countP_append, h0, List.countP_singleton, hq]
    rfl
  split
  · rename_i hlen
    have hle : (l ++ [e]).length - MAX_DEBUG_ENTRIES ≤ l.length := by
      simp only [List.length_append, List.length_singleton] at hlen ⊢
      unfold MAX_DEBUG_ENTRIES at hlen ⊢
      omega
    rw [List.drop_append_of_le_length hle, List.countP_append,
      List.countP_singleton, hq, if_pos rfl]
    have hd : (l.drop ((l ++ [e]).length - MAX_DEBUG_ENTRIES)).countP q ≤ l.countP q :=
      (List.drop_sublist _ _).countP_le q
    omega
  · exact happ

theorem mem_dequeAppend (l : List RunEntry) (e x : RunEntry)
    (h : x ∈ dequeAppend l e) : x ∈ l ∨ x = e := by
  simp only [dequeAppend] at h
  split at h
  · have := (List.drop_sublist _ _).mem h
    rcases List.mem_append.mp this with h' | h'
    · exact Or.inl h'
    · exact Or.inr (List.mem_singleton.mp h')
  · rcases List.mem_append.mp h with h' | h'
    · exact Or.inl h'
    · exact Or.inr (List.mem_singleton.mp h')

theorem lookup_some_mem (l : List (String × RunEntry)) (k : String) (v : RunEntry)
    (h : l.lookup k = some v) : (k, v) ∈ l := by
  induction l with
  | nil => simp [List.lookup] at h
  | cons p rest ih =>
    rcases p with ⟨pk, pv⟩
    by_cases hk : k = pk
    · subst hk
      simp [List.lookup] at h
      subst h
      exact List.mem_cons_self _ _
    · simp [List.lookup, beq_eq_false_iff_ne.mpr hk] at h
      exact List.mem_cons_of_mem _ (ih h)

theorem lookup_append_left_none (l₁ l₂ : List (String × RunEntry)) (k : String)
    (h : l₁.lookup k = none) : (l₁ ++ l₂).lookup k = l₂.lookup k := by
  induction l₁ with
  | nil => simp
  | cons p rest ih =>
    rcases p with ⟨pk, pv⟩
    by_cases hk : k = pk
    · subst hk; simp [List.lookup] at h
    · simp only [List.lookup, List.cons_append, beq_eq_false_iff_ne.mpr hk] at h ⊢
      exact ih h

theorem storeInv_empty (ops : List StoreOp) : StoreInv empty_store ops := by
  refine ⟨?_, ?_, ?_, ?_, ?_⟩ <;> simp [empty_store, activeCount, recentCount]

theorem storeInv_step (s : Store) (o : StoreOp) (rest : List StoreOp)
    (hinv : StoreInv s (o :: rest)) (hwf : wfOps (o :: rest) = true) :
    StoreInv (applyOp s o) rest ∧ wfOps rest = true := by
  obtain ⟨hA, hR, hD, hF, hK⟩ := hinv
  cases o with
  | record id d =>
    refine ⟨⟨?_, ?_, ?_, ?_, ?_⟩, hwf⟩
    · intro id'
      simp only [applyOp, log_run, activeCount, dictInsert]
      split
      · rw [keyCount_map_replace]
        exact hA id'
      · rename_i hany
        rw [List.countP_append, List.countP_singleton]
        by_cases h : id = id'
        · subst h
          have h0 := any_key_false_countP s.active id ((Bool.not_eq_true _).mp hany)
          simp [h0]
        · simp only [beq_eq_false_iff_ne.mpr h, Bool.false_eq_true, if_false]
          have := hA id'
          simp only [activeCount] at this
          omega
    · intro id'
      simpa [applyOp, log_run, recentCount] using hR id'
    · intro id'
      by_cases h : id' = id
      · subst h
        right
        by_contra hc
        have hcc : ¬ recentCount s id' = 0 := hc
        exact hF id' (by omega) (.record id' d) (List.mem_cons_self _ _) rfl
      · rcases hD id' with h0 | h0
        · left
          simp only [applyOp, log_run, activeCount, dictInsert]
          simp only [activeCount] at h0
          split
          · rw [keyCount_map_replace]; exact h0
          · rw [List.countP_append, List.countP_singleton, h0,
              beq_eq_false_iff_ne.mpr (Ne.symm h)]
            rfl
        · right
          simpa [applyOp, log_run, recentCount] using h0
    · intro id' h1 o' ho'
      exact hF id' (by simpa [applyOp, log_run, recentCount] using h1) o'
        (List.mem_cons_of_mem _ ho')
    · intro p hp
      have hent : ((s.active.lookup id).getD { run_id := id }).run_id = id := by
        cases hl : s.active.lookup id with
        | none => rfl
        | some e => exact hK (id, e) (lookup_some_mem _ _ _ hl)
      simp only [applyOp, log_run, dictInsert] at hp
      split at hp
      · rcases List.mem_map.mp hp with ⟨q, hq, hqe⟩
        by_cases h : q.1 = id
        · simp only [h, beq_self_eq_true, if_true] at hqe
          rw [← hqe]
          exact hent
        · simp only [beq_eq_false_iff_ne.mpr h, if_false] at hqe
          rw [← hqe]
          exact hK q hq
      · rcases List.mem_append.mp hp with h | h
        · exact hK p h
        · rcases List.mem_singleton.mp h with rfl
          exact hent
  | finish id st er =>
    have hwf' : rest.all (fun o => o.runId != id) = true ∧ wfOps rest = true := by
      simpa [wfOps, Bool.and_eq_true] using hwf
    have hpop1 : ((dictPop s.active id).1.getD { run_id := id }).run_id = id := by
      unfold dictPop
      cases hl : s.active.lookup id with
      | none => rfl
      | some e => exact hK (id, e) (lookup_some_mem _ _ _ hl)
    have hrunid : (finishedEntry ((dictPop s.active id).1.getD { run_id := id }) st er).run_id = id :=
      (finishedEntry_run_id _ _ _).trans hpop1
    have hrec0 : recentCount s id = 0 := by
      by_contra hc
      exact hF id (by omega) (.finish id st er) (List.mem_cons_self _ _) rfl
    have hsingle : ∀ id', id' ≠ id →
        ([(finishedEntry ((dictPop s.active id).1.getD { run_id := id }) st er)] :
          List RunEntry).countP (fun e => e.run_id == id') = 0 := by
      intro id' h
      rw [List.countP_singleton, hrunid]
      simp [beq_eq_false_iff_ne.mpr (Ne.symm h)]
    refine ⟨⟨?_, ?_, ?_, ?_, ?_⟩, hwf'.2⟩
    · intro id'
      simp only [applyOp, finish_run, activeCount, dictPop]
      cases hl : s.active.lookup id with
      | none => exact hA id'
      | some e =>
        by_cases h : id' = id
        · subst h
          rw [countP_filter_not_self]
          exact Nat.zero_le 1
        · rw [countP_filter_not_other _ _ _ h]
          exact hA id'
    · intro id'
      simp only [applyOp, finish_run, recentCount]
      by_cases h : id' = id
      · subst h
        exact (dequeAppend_countP_exact s.recent _ _
          (by rw [hrunid]; exact beq_self_eq_true id') hrec0).le
      · have hle := dequeAppend_countP_le s.recent
          (finishedEntry ((dictPop s.active id).1.getD { run_id := id }) st er)
          (fun e => e.run_id == id')
        have := hR id'
        simp only [recentCount] at this
        rw [hsingle id' h] at hle
        omega
    · intro id'
      by_cases h : id' = id
      · subst h
        left
        simp only [applyOp, finish_run, activeCount, dictPop]
        cases hl : s.active.lookup id' with
        | none => exact (lookup_none_iff_countP s.active id').mp hl
        | some e => exact countP_filter_not_self _ _
      · rcases hD id' with h0 | h0
        · left
          simp only [applyOp, finish_run, activeCount, dictPop]
          simp only [activeCount] at h0
          cases hl : s.active.lookup id with
          | none => exact h0
          | some e => rw [countP_filter_not_other _ _ _ h]; exact h0
        · right
          have hle := dequeAppend_countP_le s.recent
            (finishedEntry ((dictPop s.active id).1.getD { run_id := id }) st er)
            (fun e => e.run_id == id')
          rw [hsingle id' h] at hle
          simp only [applyOp, finish_run, recentCount] at *
          omega
    · intro id' h1 o' ho'
      by_cases h : id' = id
      · subst h
        have := List.all_eq_true.mp hwf'.1 o' ho'
        simpa using this
      · apply hF id' ?_ o' (List.mem_cons_of_mem _ ho')
        have hle := dequeAppend_countP_le s.recent
          (finishedEntry ((dictPop s.active id).1.getD { run_id := id }) st er)
          (fun e => e.run_id == id')
        rw [hsingle id' h] at hle
        simp only [applyOp, finish_run, recentCount] at h1 ⊢
        omega
    · intro p hp
      simp only [applyOp, finish_run, dictPop] at hp
      cases hl : s.active.lookup id with
      | none =>
        rw [hl] at hp
        exact hK p hp
      | some e =>
        rw [hl] at hp
        exact hK p (List.mem_of_mem_filter hp)

theorem storeInv_applyOps (s : Store) (pre suf : List StoreOp)
    (hinv : StoreInv s (pre ++ suf)) (hwf : wfOps (pre ++ suf) = true) :
    StoreInv (applyOps s pre) suf := by
  induction pre generalizing s with
  | nil => simpa using hinv
  | cons o pre ih =>
    have step := storeInv_step s o (pre ++ suf) (by simpa using hinv) (by simpa using hwf)
    exact ih (applyOp s o) step.1 step.2

/-! ### Claim C8 -/

/-- Claim C8, counterexample: the one-entry-per-runId invariant fails
for an arbitrary operation sequence — recording a runId again after it
was finished leaves one entry in the active map and one in the recent
buffer at the same time. -/
theorem C8_counterexample :
    activeCount (applyOps empty_store
      [.record "r1" "started", .finish "r1" "success" none, .record "r1" "resumed"]) "r1" = 1 ∧
    recentCount (applyOps empty_store
      [.record "r1" "started", .finish "r1" "success" none, .record "r1" "resumed"]) "r1" = 1 ∧
    ¬ runEntryCount (applyOps empty_store
      [.record "r1" "started", .finish "r1" "success" none, .record "r1" "resumed"]) "r1" ≤ 1 := by
  decide

/-- Claim C8 (corrected): for a runId not yet present, `record` followed
by `finish` leaves it absent from the active map and exactly once in the
recent buffer with its status set; and along every well-formed operation
sequence (no runId touched again after its `finish` — the handlers'
discipline) every prefix of the run leaves at most one `RunEntry` per
runId across the active map and recent buffer together. -/
theorem C8_run_history (s : Store) (id d st : String) (er : Option String)
    (ha : s.active.lookup id = none) (hr : recentCount s id = 0)
    (pre suf : List StoreOp) (hwf : wfOps (pre ++ suf) = true) :
    ((finish_run (log_run s id d) id st er).active.lookup id = none ∧
     recentCount (finish_run (log_run s id d) id st er) id = 1 ∧
     (∀ e ∈ (finish_run (log_run s id d) id st er).recent,
        e.run_id = id → e.status = some st)) ∧
    (∀ rid, runEntryCount (applyOps empty_store pre) rid ≤ 1) := by
  have hc0 : s.active.countP (fun p => p.1 == id) = 0 := (lookup_none_iff_countP _ _).mp ha
  have hany : s.active.any (fun p => p.1 == id) = false :=
    List.any_eq_false.mpr (List.countP_eq_zero.mp hc0)
  have hact1 : (log_run s id d).active =
      s.active ++ [(id, { run_id := id, events := [d] })] := by
    simp only [log_run, ha, Option.getD_none, dictInsert, hany, Bool.false_eq_true, if_false]
    rfl
  have hlook1 : (log_run s id d).active.lookup id = some { run_id := id, events := [d] } := by
    rw [hact1, lookup_append_left_none _ _ _ ha]
    simp [List.lookup]
  have hfin : finish_run (log_run s id d) id st er =
      { active := (log_run s id d).active.filter (fun p => !(p.1 == id))
        recent := dequeAppend (log_run s id d).recent
          (finishedEntry { run_id := id, events := [d] } st er) } := by
    simp only [finish_run, dictPop, hlook1]
    rfl
  refine ⟨⟨?_, ?_, ?_⟩, ?_⟩
  · rw [hfin]
    exact (lookup_none_iff_countP _ _).mpr (countP_filter_not_self _ _)
  · simp only [hfin, recentCount]
    exact dequeAppend_countP_exact _ _ _
      (by rw [finishedEntry_run_id]; exact beq_self_eq_true id) hr
  · intro e he h
    rw [hfin] at he
    rcases mem_dequeAppend _ _ _ he with hmem | rfl
    · exfalso
      have := List.countP_eq_zero.mp hr e hmem
      simp [h] at this
    · exact finishedEntry_status _ _ _
  · intro rid
    obtain ⟨hA, hR, hD, _, _⟩ :=
      storeInv_applyOps empty_store pre suf (storeInv_empty _) hwf
    have := hA rid
    have := hR rid
    rcases hD rid with h0 | h0 <;> (unfold runEntryCount; omega)

/-- Witness for C8's theorem: the runId `"r1"` recorded then finished
from the empty store, with the same two operations as the well-formed
trace. -/
theorem C8_run_history_witness :
    (empty_store.active.lookup "r1" = none) ∧
    (recentCount empty_store "r1" = 0) ∧
    (wfOps ([StoreOp.record "r1" "started", StoreOp.finish "r1" "success" none] ++ []) = true) ∧
    (((finish_run (log_run empty_store "r1" "started") "r1" "success" none).active.lookup "r1" = none ∧
      recentCount (finish_run (log_run empty_store "r1" "started") "r1" "success" none) "r1" = 1 ∧
      (∀ e ∈ (finish_run (log_run empty_store "r1" "started") "r1" "success" none).recent,
         e.run_id = "r1" → e.status = some "success")) ∧
     (∀ rid, runEntryCount
        (applyOps empty_store [StoreOp.record "r1" "started", StoreOp.finish "r1" "success" none])
        rid ≤ 1)) :=
  ⟨by decide, by decide, by decide,
   C8_run_history empty_store "r1" "started" "success" none (by decide) (by decide)
     [StoreOp.record "r1" "started", StoreOp.finish "r1" "success" none] [] (by decide)⟩

theorem countResults_append (l₁ l₂ : List SseEvent) :
    countResults (l₁ ++ l₂) = countResults l₁ + countResults l₂ := by
  simp [countResults, List.filter_append]

theorem finalize_spec (address county : String) (rh : ResultHolder)
    (shots : List (String × String)) :
    countResults (finalize address county rh shots) = 1 ∧
    (∃ dta err fs, (finalize address county rh shots).getLast? =
      some (.result dta err fs)) ∧
    (rh.success = false →
      ∃ e fs, (finalize address county rh shots).getLast? =
        some (.result none (some e) fs)) := by
  unfold finalize
  split
  · split
    · exact ⟨rfl, ⟨_, _, _, rfl⟩, fun _ => ⟨_, _, rfl⟩⟩
    · exact ⟨rfl, ⟨_, _, _, rfl⟩, fun _ => ⟨_, _, rfl⟩⟩
  · rename_i hsucc
    have hs : rh.success = true := by
      cases h : rh.success with
      | true => rfl
      | false => exact absurd (by rw [h]; rfl) hsucc
    split
    · exact ⟨rfl, ⟨_, _, _, rfl⟩, fun hf => absurd hs (by simp [hf])⟩
    · exact ⟨rfl, ⟨_, _, _, rfl⟩, fun hf => absurd hs (by simp [hf])⟩

theorem streamLoop_no_result (polls : List Poll) (s : Nat)
    (shots : List (String × String)) :
    countResults (streamLoop polls s shots).events = 0 := by
  induction polls generalizing s shots with
  | nil => rfl
  | cons p rest ih =>
    cases p with
    | recv item =>
      cases item with
      | sentinel => rfl
      | ev e =>
        have h := ih 0 (shots ++ screenshotsOf e)
        cases e <;>
          simpa [streamLoop, countResults, isResult, toSse, List.filter_cons] using h
    | empty alive =>
      cases alive with
      | false => rfl
      | true =>
        by_cases hc : INACTIVITY_CEILING < s + POLL_TIMEOUT
        · simp [streamLoop, hc, countResults, isResult]
        · have h := ih (s + POLL_TIMEOUT) shots
          simpa [streamLoop, hc, countResults, isResult, List.filter_cons] using h

theorem sim_stream_go_no_result (steps : List (String × String)) (emitted : List String) :
    countResults (sim_stream_go steps emitted) = 0 := by
  induction steps generalizing emitted with
  | nil => rfl
  | cons p rest ih =>
    rcases p with ⟨st, msg⟩
    simp only [sim_stream_go]
    cases hl : screenshot_at.lookup st with
    | none =>
      simp only [countResults, List.filter_cons, isResult, Bool.false_eq_true, if_false]
      exact ih emitted
    | some label =>
      dsimp only
      by_cases he : emitted.contains st = true
      · rw [if_pos he]
        simp only [countResults, List.filter_cons, isResult, Bool.false_eq_true, if_false]
        exact ih emitted
      · rw [if_neg he]
        simp only [countResults, List.filter_cons, isResult, Bool.false_eq_true, if_false]
        exact ih (st :: emitted)

theorem streamLoop_progress (ps : List (String × String)) (s : Nat)
    (shots : List (String × String)) :
    streamLoop (ps.map (fun p => Poll.recv (.ev (.progress p.1 p.2))) ++
        [Poll.recv .sentinel]) s shots =
      ⟨ps.map (fun p => SseEvent.progress p.1 p.2), shots, .sentinel, []⟩ := by
  induction ps generalizing s shots with
  | nil => rfl
  | cons p rest ih =>
    simp only [List.map_cons, List.cons_append, streamLoop, screenshotsOf,
      List.append_nil, toSse]
    rw [List.append_eq, ih]

theorem getLast?_append_right (l₁ l₂ : List SseEvent) (h : l₂ ≠ []) :
    (l₁ ++ l₂).getLast? = l₂.getLast? := by
  rw [List.getLast?_append, Option.or_of_isSome (List.getLast?_isSome.mpr h)]

/-- Claim C1, counterexample, failing at two concrete run outcomes:
when the primary search fails but the simplified fallback search
succeeds and a non-empty chain is extracted, the code clears the
partial flag (`search_succeeded` is also set by the fallback) while the
claim demands it be set; and on a run that extracted nothing, the
partial flag is set but the emitted result event carries no source
string at all (its data is `None`), so the suffix clause fails too. -/
theorem C1_counterexample :
    (¬ C1_claim_at "123 Main St" "Harris County"
        { ownership_chain := [⟨"2024-05-01", "Seller LLC", "Buyer Trust",
            "Warranty Deed", "2024-123456"⟩]
          primary_search_ok := false
          fallback_search_ok := true }) ∧
    (¬ C1_claim_at "123 Main St" "Harris County" {}) := by
  constructor
  · intro h
    exact absurd (h.2.1.mpr (Or.inr rfl)) (by decide)
  · intro h
    obtain ⟨src, hsrc, -⟩ := h.2.2 (by decide)
    have h0 : resultSourceOf
        (finalize "123 Main St" "Harris County" (completeHolder {} []) []) = none := by
      decide
    rw [h0] at hsrc
    cases hsrc

/-- Claim C1 (corrected): at the end of a completed (non-aborted) run
the coordinator reports success exactly when the ownership chain or the
liens list is non-empty or a parcel id was obtained; it sets the
partial flag exactly when the ownership chain is empty or neither the
primary nor the fallback property-search instruction succeeded; and
whenever the partial flag is set on a run reported successful, the
source string of the emitted result event carries the suffix
`" (partial)"`. -/
theorem C1_success_partial_policy (d : RunData) (timings : List StepTiming)
    (address county : String) (shots : List (String × String)) :
    ((completeHolder d timings).success = true ↔
      (d.ownership_chain ≠ [] ∨ d.liens ≠ [] ∨ pyTruthyStr d.parcel_id = true)) ∧
    ((completeHolder d timings).partialFlag = true ↔
      (d.ownership_chain = [] ∨ searchSucceeded d = false)) ∧
    ((completeHolder d timings).partialFlag = true →
      (completeHolder d timings).success = true →
      ∃ src,
        resultSourceOf (finalize address county (completeHolder d timings) shots) = some src ∧
        strEndsWith src " (partial)") := by
  refine ⟨?_, ?_, ?_⟩
  · simp [completeHolder, Bool.or_eq_true, Bool.not_eq_true', List.isEmpty_iff]
    tauto
  · simp [completeHolder, Bool.not_eq_true', Bool.and_eq_true, Bool.not_eq_true,
      List.isEmpty_iff]
  · intro hp hs
    unfold finalize
    rw [if_neg (by rw [hs]; exact Bool.false_ne_true), if_pos hp]
    by_cases ht : (completeHolder d timings).step_timings.isEmpty
    · rw [if_pos ht]
      exact ⟨_, rfl, strEndsWith_append _ _⟩
    · rw [if_neg ht]
      exact ⟨_, rfl, strEndsWith_append _ _⟩

/-- Claim C2, counterexample: with one enqueued progress event and the
sentinel, the relay's output is not the single progress event followed
by just the result event — the finalization inserts its own progress
events before the result, so the output has six events, not two. -/
theorem C2_counterexample :
    ¬ ((relay_tail "123 Main St" "Harris County"
          [Poll.recv (.ev (.progress "retrieval" "m1")), Poll.recv .sentinel]
          (completeHolder { ownership_chain := [{ date := "2024-05-01" }] } [])).length
        = 1 + 1) := by
  decide

/-- Claim C2 (corrected): when the coordinator enqueues N progress
events then the sentinel, the relay yields exactly those N progress
events first, in order and with nothing interleaved, followed by the
finalization sequence (synthetic progress/debug events on success, or
an error and optional debug on failure) which contains exactly one
result event, as its last event. -/
theorem C2_relay_order (address county : String) (ps : List (String × String))
    (rh : ResultHolder) :
    relay_tail address county
        (ps.map (fun p => Poll.recv (.ev (.progress p.1 p.2))) ++ [Poll.recv .sentinel]) rh =
      ps.map (fun p => SseEvent.progress p.1 p.2) ++ finalize address county rh [] ∧
    countResults (relay_tail address county
        (ps.map (fun p => Poll.recv (.ev (.progress p.1 p.2))) ++ [Poll.recv .sentinel]) rh)
      = 1 ∧
    (∃ dta err fs,
      (relay_tail address county
          (ps.map (fun p => Poll.recv (.ev (.progress p.1 p.2))) ++ [Poll.recv .sentinel])
          rh).getLast? = some (.result dta err fs)) ∧
    countResults (ps.map (fun p => SseEvent.progress p.1 p.2)) = 0 := by
  have hfin_ne : finalize address county rh [] ≠ [] := by
    obtain ⟨dta, err, fs, hl⟩ := (finalize_spec address county rh []).2.1
    intro hnil
    rw [hnil] at hl
    cases hl
  have hmap0 : countResults (ps.map (fun p => SseEvent.progress p.1 p.2)) = 0 := by
    induction ps with
    | nil => rfl
    | cons q rest ih => simpa [countResults, List.filter_cons, isResult] using ih
  have h1 : relay_tail address county
      (ps.map (fun p => Poll.recv (.ev (.progress p.1 p.2))) ++ [Poll.recv .sentinel]) rh =
      ps.map (fun p => SseEvent.progress p.1 p.2) ++ finalize address county rh [] := by
    simp only [relay_tail, streamLoop_progress]
    rfl
  refine ⟨h1, ?_, ?_, hmap0⟩
  · rw [h1, countResults_append, hmap0, (finalize_spec address county rh []).1]
  · rw [h1, getLast?_append_right _ _ hfin_ne]
    exact (finalize_spec address county rh []).2.1

/-- Heartbeat prefix of the polling loop: `k` consecutive empty polls
below the inactivity ceiling yield only heartbeat progress events and
leave the loop's outcome that of the remaining schedule, clocked
forward. -/
theorem streamLoop_empties (k : Nat) (rest : List Poll) (s : Nat)
    (shots : List (String × String)) (h : s + 10 * k ≤ 300) :
    ∃ hb : List SseEvent,
      streamLoop (List.replicate k (Poll.empty true) ++ rest) s shots =
        { events := hb ++ (streamLoop rest (s + 10 * k) shots).events
          shots := (streamLoop rest (s + 10 * k) shots).shots
          exit := (streamLoop rest (s + 10 * k) shots).exit
          unconsumed := (streamLoop rest (s + 10 * k) shots).unconsumed } ∧
      hb.filter isTimeoutError = [] := by
  induction k generalizing s with
  | zero =>
    refine ⟨[], by simp, rfl⟩
  | succ k ih =>
    obtain ⟨hb, he, hf⟩ := ih (s + 10) (by omega)
    refine ⟨SseEvent.progress "retrieval" (heartbeatMsg (s + 10)) :: hb, ?_, ?_⟩
    · rw [List.replicate_succ, List.cons_append]
      have harith : s + 10 + 10 * k = s + 10 * (k + 1) := by ring
      rw [harith] at he
      simp only [streamLoop, Bool.not_true, Bool.false_eq_true, if_false,
        POLL_TIMEOUT, INACTIVITY_CEILING]
      rw [if_neg (by omega), he]
      rfl
    · simp [List.filter_cons, isTimeoutError, hf]

/-- Claim C3 (confirmed): with no events ever enqueued and the worker
thread alive, the relay polls 31 times (30 ten-second timeouts reach
the 300 s ceiling, the 31st exceeds it), stops consuming the queue
(the rest of the schedule is untouched), exits by timeout, and the
whole stream contains exactly one synthetic timeout error event (the
heartbeats are progress events; the finalization's failure events name
the failed step, not a timeout). -/
theorem C3_relay_inactivity_timeout (address county : String)
    (live_view_url : Option String) (rest : List Poll) :
    (streamLoop (List.replicate 31 (Poll.empty true) ++ rest) 0 []).unconsumed = rest ∧
    (streamLoop (List.replicate 31 (Poll.empty true) ++ rest) 0 []).exit =
      LoopExit.timedOut ∧
    (nova_act_stream address county live_view_url
        (List.replicate 31 (Poll.empty true) ++ rest) initial_holder).filter isTimeoutError =
      [SseEvent.error "timeout" "Browser agent timed out after 5 minutes of inactivity"] := by
  have hsplit : List.replicate 31 (Poll.empty true) ++ rest =
      List.replicate 30 (Poll.empty true) ++ (Poll.empty true :: rest) := by
    rw [List.replicate_succ']
    simp [List.append_assoc]
  obtain ⟨hb, he, hf⟩ := streamLoop_empties 30 (Poll.empty true :: rest) 0 [] (by norm_num)
  norm_num at he
  have hinner : streamLoop (Poll.empty true :: rest) 300 [] =
      ⟨[SseEvent.error "timeout" "Browser agent timed out after 5 minutes of inactivity"],
        [], LoopExit.timedOut, rest⟩ := rfl
  rw [hinner] at he
  refine ⟨?_, ?_, ?_⟩
  · rw [hsplit, he]
  · rw [hsplit, he]
  · simp only [nova_act_stream, relay_tail, hsplit, he]
    cases live_view_url with
    | none =>
      simp only [List.filter_append, hf]
      rfl
    | some url =>
      simp only [List.filter_append, hf]
      rfl

/-- Claim C4 (corrected): every event stream the streaming endpoint
produces — over any completed poll schedule, and provided the effective
county contains a word (a whitespace-only county field crashes the
simulated stream's generator before its result event) — contains
exactly one result event, as its final event; and on total failure of a
real-agent run that single result event carries `data: None` together
with an error string (no fabricated title data). -/
theorem C4_stream_single_result (nova aws : Bool)
    (address_field county_field : Option String) (live_view_url : Option String)
    (polls : List Poll) (rh : ResultHolder) (Y : Int) (r : SimRand)
    (evs : List SseEvent)
    (hok : search_stream nova aws address_field county_field live_view_url polls rh Y r =
      StreamResponse.eventStream evs)
    (hcomplete : (nova && aws) = true → (streamLoop polls 0 []).exit ≠ LoopExit.exhausted)
    (hcounty : pySplitWs (effective_county county_field) ≠ []) :
    countResults evs = 1 ∧
    (∃ dta err fs, evs.getLast? = some (.result dta err fs)) ∧
    ((nova && aws) = true → rh.success = false →
      ∃ e fs, evs.getLast? = some (.result none (some e) fs)) := by
  unfold search_stream at hok
  by_cases haddr : (effective_address address_field).data.isEmpty
  · rw [if_pos haddr] at hok
    cases hok
  · rw [if_neg haddr] at hok
    injection hok with hok
    subst hok
    unfold run_nova_act_streaming
    have hfin_ne : ∀ sh, finalize (effective_address address_field)
        (effective_county county_field) rh sh ≠ [] := by
      intro sh hnil
      obtain ⟨dta, err, fs, hl⟩ :=
        (finalize_spec (effective_address address_field)
          (effective_county county_field) rh sh).2.1
      rw [hnil] at hl
      cases hl
    by_cases hna : (nova && aws) = true
    · rw [if_pos hna]
      simp only [nova_act_stream, relay_tail]
      rw [if_neg (hcomplete hna)]
      have h2 : countResults (match live_view_url with
          | some url => [SseEvent.live_view url,
              SseEvent.progress "retrieval"
                ("Cloud browser live — navigating to " ++ effective_county county_field ++
                  " recorder...")]
          | none => []) = 0 := by
        cases live_view_url <;> rfl
      refine ⟨?_, ?_, ?_⟩
      · rw [countResults_append, countResults_append, countResults_append,
          h2, streamLoop_no_result,
          (finalize_spec (effective_address address_field)
            (effective_county county_field) rh _).1]
        rfl
      · rw [getLast?_append_right _ _
            (fun hnil => hfin_ne _ (List.append_eq_nil.mp hnil).2),
          getLast?_append_right _ _ (hfin_ne _)]
        exact (finalize_spec _ _ _ _).2.1
      · intro _ hfail
        rw [getLast?_append_right _ _
            (fun hnil => hfin_ne _ (List.append_eq_nil.mp hnil).2),
          getLast?_append_right _ _ (hfin_ne _)]
        exact (finalize_spec _ _ _ _).2.2 hfail
    · rw [if_neg hna]
      rcases hsp : pySplitWs (effective_county county_field) with _ | ⟨w, ws⟩
      · exact absurd hsp hcounty
      · have hs : simulate_search (effective_address address_field)
            (effective_county county_field) Y r =
            some { address := effective_address address_field
                   county := effective_county county_field
                   ownership_chain := sim_chain Y r
                   liens := sim_liens w Y r
                   parcel_id := some (Nat.repr r.parcelNum)
                   legal_description := some ("LOT " ++ Nat.repr r.lotNum ++ ", BLK " ++
                     Nat.repr r.blkNum ++ ", " ++ ofChars (w.data.map Char.toUpper) ++
                     " GARDENS SUBDIVISION, " ++ w ++ " COUNTY")
                   source := "simulation" } := by
          rw [simulate_search, hsp]
        simp only [simulate_stream, hs]
        refine ⟨?_, ?_, ?_⟩
        · rw [countResults_append, sim_stream_go_no_result]
          rfl
        · rw [getLast?_append_right _ _ (by intro h; cases h)]
          exact ⟨_, _, _, rfl⟩
        · intro hna' _
          exact absurd hna' hna

/-- Witness for C4's theorem: a concrete simulated run (no SDK). -/
theorem C4_stream_single_result_witness :
    ∃ evs,
      search_stream false false (some "123 Main St") none none [] initial_holder
        2026 simRandW = StreamResponse.eventStream evs ∧
      (countResults evs = 1 ∧
       (∃ dta err fs, evs.getLast? = some (.result dta err fs)) ∧
       ((false && false) = true → initial_holder.success = false →
         ∃ e fs, evs.getLast? = some (.result none (some e) fs))) :=
  ⟨_, rfl,
   C4_stream_single_result false false (some "123 Main St") none none [] initial_holder
     2026 simRandW _ rfl (by decide) (by decide)⟩

/-- Claim C4, counterexample input: in simulation mode a whitespace-only
county field yields a stream that ends with no result event at all —
`county.split()[0]` raises inside the generator after the scripted
progress events. -/
theorem C4_counterexample :
    ∃ evs,
      search_stream false false (some "123 Main St") (some " ") none [] initial_holder
        2026 simRandW = StreamResponse.eventStream evs ∧
      countResults evs = 0 :=
  ⟨_, rfl, by decide⟩

end TitleNova
